import Mathlib

/-!
# Driver of the free-floating PID control node

Shallow embedding of `main` in `src/freefloating_pids_main.cpp`.

* The parameter server is a record `Params` with one field per key that `main` reads,
  each at the type `main` reads it at.
* `main` is a function from what the outside world supplies (the successive snapshots of
  the parameter server seen by the start-up wait loop, and the messages handled by each
  `ros::spinOnce()`) to the calls it makes on its collaborators, recorded as `Event`s.
* The classes `FreeFloatingBodyPids`, `FreeFloatingJointPids` and `ffg::ThrusterMapper`
  are declared in headers that are not among the sources, so `main` is parametrised by
  their member functions (`Classes`).
* Every read of the parameter server after the wait loop sees the snapshot on which
  the wait loop ended.
* Callbacks run only inside `ros::spinOnce()` (the node is single-threaded), one per
  message waiting for a subscription that `main` made.
* `loop.sleep()` is recorded as a call on the rate `loop`; how long it really sleeps
  is not embedded.
* Not embedded: `ros::service::waitForService` (taken to return), the `ROS_INFO` line,
  and the `sleep(5)` of the wait loop.
-/

namespace FreeFloating

/-! ## Time -/

/-- A `ros::Duration`, held as a signed number of nanoseconds. -/
structure Duration where
  nsec : Int
deriving DecidableEq, Repr

/-- Constructor `ros::Duration(double)`: the argument in seconds, rounded to the nanosecond.
The `double` is read as a rational. -/
def Duration.fromSec (d : ℚ) : Duration :=
  { nsec := round (d * 1000000000) }

/-- A `ros::Rate`: the expected cycle time of the loop that sleeps on it. -/
structure Rate where
  expected_cycle_time : Duration
deriving DecidableEq, Repr

/-- Constructor `ros::Rate(double frequency)`: expected cycle time `1.0 / frequency`. -/
def Rate.ofFrequency (frequency : ℚ) : Rate :=
  { expected_cycle_time := Duration.fromSec (1 / frequency) }

/-- The loop rate, `ros::Rate loop(100);` (line 72). -/
def loop : Rate := Rate.ofFrequency 100

/-- The tick interval, `ros::Duration dt(.01);` (line 73). -/
def dt : Duration := Duration.fromSec (1 / 100)

/-! ## Parameter server -/

/-- One snapshot of the parameter server, restricted to the keys `main` reads.
`none` is an absent key. The first thirteen fields live under the `controllers`
namespace (`control_node`), the last two are private (`priv`). -/
structure Params where
  /-- Result of `control_node.hasParam("config/body")`. -/
  config_body : Bool
  /-- Key `config/joints/name`. -/
  joints_name : Option (List String)
  /-- Key `config/body/control_type`. -/
  control_type : Option String
  /-- Key `config/body/use_pid`. -/
  use_pid : Option Bool
  /-- Key `config/body/position_setpoint`. -/
  position_setpoint : Option String
  /-- Key `config/body/velocity_setpoint`. -/
  velocity_setpoint : Option String
  /-- Key `config/body/wrench_setpoint`. -/
  wrench_setpoint : Option String
  /-- Key `config/body/state`. -/
  state : Option String
  /-- Key `config/body/command`. -/
  command : Option String
  /-- Key `config/body/axes`. -/
  axes : Option (List String)
  /-- Key `config/joints/setpoint`. -/
  joints_setpoint : Option String
  /-- Key `config/joints/state`. -/
  joints_state : Option String
  /-- Key `config/joints/command`. -/
  joints_command : Option String
  /-- Private key `~body_control`. -/
  body_control : Option String
  /-- Private key `~joint_control`. -/
  joint_control : Option String
deriving DecidableEq, Repr

/-- Call `NodeHandle::param(key, var, default)`: the stored value, or the default. -/
def param {α : Type} (stored : Option α) (default : α) : α :=
  match stored with
  | some v => v
  | none => default

/-- Call `NodeHandle::getParam(key, var)`: overwrite `var` when the key is present,
leave it as it was otherwise. -/
def getParam {α : Type} (stored : Option α) (var : α) : α :=
  match stored with
  | some v => v
  | none => var

/-! ## Collaborating classes -/

/-- The six member callbacks that `main` subscribes. -/
inductive Callback
  | PositionSPCallBack
  | VelocitySPCallBack
  | WrenchSPCallBack
  | BodyMeasureCallBack
  | SetpointCallBack
  | JointMeasureCallBack
deriving DecidableEq, Repr

/-- Members of `FreeFloatingBodyPids` that `main` uses, over a state type `B`. -/
structure BodyPids (B W Msg : Type) where
  /-- The default-constructed object (line 79). -/
  construct : B
  /-- Call `Init(control_node, dt, controlled_axes, default_mode)`. -/
  Init : B → Params → Duration → List String → String → B
  /-- Call `UpdatePID()`: its boolean result and the object afterwards. -/
  UpdatePID : B → Bool × B
  /-- Call `WrenchCommand()`, taken as an accessor. -/
  WrenchCommand : B → W
  PositionSPCallBack : B → Msg → B
  VelocitySPCallBack : B → Msg → B
  WrenchSPCallBack : B → Msg → B
  MeasureCallBack : B → Msg → B

/-- Members of `FreeFloatingJointPids` that `main` uses, over a state type `J`. -/
structure JointPids (J E Msg : Type) where
  /-- The default-constructed object (line 114). -/
  construct : J
  /-- Call `Init(control_node, dt, default_mode)`. -/
  Init : J → Params → Duration → String → J
  /-- Call `UpdatePID()`: its boolean result and the object afterwards. -/
  UpdatePID : J → Bool × J
  /-- Call `EffortCommand()`, taken as an accessor. -/
  EffortCommand : J → E
  SetpointCallBack : J → Msg → J
  MeasureCallBack : J → Msg → J

/-- Members of `ffg::ThrusterMapper` that `main` uses, over a state type `Mp`.
`parse` reports whether it succeeded next to the object it leaves behind; `main`
calls it as a bare statement. -/
structure ThrusterMapper (Mp W T : Type) where
  /-- The default-constructed object (line 147). -/
  construct : Mp
  /-- Call `parse(nh)`. -/
  parse : Mp → Bool × Mp
  /-- Call `wrench2Thrusters(wrench)`, which leaves the mapper as it is. -/
  wrench2Thrusters : Mp → W → T

/-- The three classes together. -/
structure Classes (B J Mp W T E Msg : Type) where
  body : BodyPids B W Msg
  joint : JointPids J E Msg
  mapper : ThrusterMapper Mp W T

/-! ## Observable calls -/

/-- What `body_command_publisher.publish` is handed: the wrench itself, or the
thruster forces computed from it. -/
inductive BodyCommand (W T : Type)
  | wrench (w : W)
  | thrusters (t : T)
deriving DecidableEq, Repr

/-- The calls of `main` on its collaborators, in program order. -/
inductive Event (W T E Msg : Type)
  /-- Call `body_pid.Init(control_node, dt, controlled_axes, default_mode)`. -/
  | bodyInit (dt : Duration) (controlled_axes : List String) (default_mode : String)
  /-- Call `joint_pid.Init(control_node, dt, default_mode)`. -/
  | jointInit (dt : Duration) (default_mode : String)
  /-- Call `nh.subscribe(topic, 1, callback, object)`. -/
  | subscribe (topic : String) (cb : Callback)
  /-- Call `body_command_publisher = nh.advertise(body_command_topic, 1)`. -/
  | bodyAdvertise (topic : String)
  /-- Call `joint_command_publisher = nh.advertise(joint_command_topic, 1)`. -/
  | jointAdvertise (topic : String)
  /-- Call `mapper.parse(nh)`, with the outcome that `main` drops. -/
  | mapperParse (ok : Bool)
  /-- Call `body_pid.UpdatePID()` and what it returned. -/
  | bodyUpdatePID (updated : Bool)
  /-- Call `joint_pid.UpdatePID()` and what it returned. -/
  | jointUpdatePID (updated : Bool)
  /-- Call `mapper.wrench2Thrusters(w)`. -/
  | wrench2Thrusters (w : W)
  /-- Call `body_command_publisher.publish(payload)`. -/
  | bodyPublish (payload : BodyCommand W T)
  /-- Call `joint_command_publisher.publish(payload)`. -/
  | jointPublish (payload : E)
  /-- A subscribed callback run by `ros::spinOnce()`. -/
  | callback (cb : Callback) (msg : Msg)
  /-- Call `loop.sleep()`, on a rate with this expected cycle time. -/
  | loopSleep (expected_cycle_time : Duration)
deriving DecidableEq, Repr

/-- The local variables of `main` that are live in the control loop. -/
structure Node (B J Mp : Type) where
  control_body : Bool
  control_joints : Bool
  output_thrusters : Bool
  body_pid : B
  joint_pid : J
  mapper : Mp
deriving DecidableEq, Repr

section Driver

variable {B J Mp W T E Msg : Type}

/-! ## Start-up -/

/-- Lines 19-27: `while(!(control_body || control_joints))` with one reading of the
parameter server per round. The result is the snapshot on which the loop ends, or
`none` when no snapshot of `polls` ends it (the node is still waiting). -/
def waitForConfig : List Params → Option Params
  | [] => none
  | p :: rest =>
    if p.config_body || p.joints_name.isSome then some p else waitForConfig rest

/-- Lines 29-40: `(control_body, output_thrusters)` after the recheck against
wrench vs thruster control. -/
def recheckControlBody (p : Params) (control_body : Bool) : Bool × Bool :=
  match p.control_type with
  | some control_type =>
    if control_type = "thruster" then (param p.use_pid false, true)
    else (control_body, false)
  | none => (control_body, false)

/-- Lines 77-111: the body controller, the value of `default_mode` afterwards and
the calls made. -/
def initBody (c : Classes B J Mp W T E Msg) (p : Params) (control_body : Bool)
    (default_mode : String) : B × String × List (Event W T E Msg) :=
  if control_body then
    let body_position_sp_topic := param p.position_setpoint "body_position_setpoint"
    let body_velocity_sp_topic := param p.velocity_setpoint "body_velocity_setpoint"
    let body_effort_sp_topic := param p.wrench_setpoint "body_wrench_setpoint"
    let body_state_topic := param p.state "state"
    let body_command_topic := param p.command "body_command"
    let controlled_axes := getParam p.axes []
    let default_mode := getParam p.body_control default_mode
    (c.body.Init c.body.construct p dt controlled_axes default_mode, default_mode,
      [Event.bodyInit dt controlled_axes default_mode,
       Event.subscribe body_position_sp_topic Callback.PositionSPCallBack,
       Event.subscribe body_velocity_sp_topic Callback.VelocitySPCallBack,
       Event.subscribe body_effort_sp_topic Callback.WrenchSPCallBack,
       Event.subscribe body_state_topic Callback.BodyMeasureCallBack,
       Event.bodyAdvertise body_command_topic])
  else (c.body.construct, default_mode, [])

/-- Lines 113-136: the joint controller, the value of `default_mode` afterwards and
the calls made. -/
def initJoints (c : Classes B J Mp W T E Msg) (p : Params) (control_joints : Bool)
    (default_mode : String) : J × String × List (Event W T E Msg) :=
  if control_joints then
    let joint_setpoint_topic := param p.joints_setpoint "joint_setpoint"
    let joint_state_topic := param p.joints_state "joint_states"
    let joint_command_topic := param p.joints_command "joint_command"
    let default_mode := "position"
    let default_mode := getParam p.joint_control default_mode
    (c.joint.Init c.joint.construct p dt default_mode, default_mode,
      [Event.jointInit dt default_mode,
       Event.subscribe joint_setpoint_topic Callback.SetpointCallBack,
       Event.subscribe joint_state_topic Callback.JointMeasureCallBack,
       Event.jointAdvertise joint_command_topic])
  else (c.joint.construct, default_mode, [])

/-- Lines 147-149: the mapper, parsed only when thrusters are the output. -/
def initMapper (c : Classes B J Mp W T E Msg) (output_thrusters : Bool) :
    Mp × List (Event W T E Msg) :=
  if output_thrusters then
    let r := c.mapper.parse c.mapper.construct
    (r.2, [Event.mapperParse r.1])
  else (c.mapper.construct, [])

/-- Lines 25-149 on the snapshot that ended the wait loop: the state with which the
control loop is entered and the calls made on the way. -/
def configure (c : Classes B J Mp W T E Msg) (p : Params) :
    Node B J Mp × List (Event W T E Msg) :=
  let control_body := p.config_body
  let control_joints := p.joints_name.isSome
  let flags := recheckControlBody p control_body
  let control_body := flags.1
  let output_thrusters := flags.2
  let default_mode := "position"
  let body := initBody c p control_body default_mode
  let default_mode := body.2.1
  let joints := initJoints c p control_joints default_mode
  let mapper := initMapper c output_thrusters
  ({ control_body := control_body, control_joints := control_joints,
     output_thrusters := output_thrusters, body_pid := body.1, joint_pid := joints.1,
     mapper := mapper.1 },
   body.2.2 ++ joints.2.2 ++ mapper.2)

/-! ## Control loop -/

/-- Lines 153-163: update body and publish. -/
def tickBody (c : Classes B J Mp W T E Msg) (n : Node B J Mp) :
    Node B J Mp × List (Event W T E Msg) :=
  if n.control_body then
    let r := c.body.UpdatePID n.body_pid
    let n := { n with body_pid := r.2 }
    if r.1 then
      if n.output_thrusters then
        let w := c.body.WrenchCommand n.body_pid
        (n, [Event.bodyUpdatePID true, Event.wrench2Thrusters w,
             Event.bodyPublish (BodyCommand.thrusters (c.mapper.wrench2Thrusters n.mapper w))])
      else
        (n, [Event.bodyUpdatePID true,
             Event.bodyPublish (BodyCommand.wrench (c.body.WrenchCommand n.body_pid))])
    else (n, [Event.bodyUpdatePID false])
  else (n, [])

/-- Lines 165-168: update joints and publish. -/
def tickJoints (c : Classes B J Mp W T E Msg) (n : Node B J Mp) :
    Node B J Mp × List (Event W T E Msg) :=
  if n.control_joints then
    let r := c.joint.UpdatePID n.joint_pid
    let n := { n with joint_pid := r.2 }
    if r.1 then
      (n, [Event.jointUpdatePID true, Event.jointPublish (c.joint.EffortCommand n.joint_pid)])
    else (n, [Event.jointUpdatePID false])
  else (n, [])

/-- One message handled by `ros::spinOnce()`: it runs the callback it is addressed to
when `main` subscribed that callback, which it did for the body callbacks only under
`control_body` and for the joint callbacks only under `control_joints`. -/
def dispatch (c : Classes B J Mp W T E Msg) (n : Node B J Mp) (cb : Callback) (msg : Msg) :
    Node B J Mp × List (Event W T E Msg) :=
  match cb with
  | Callback.PositionSPCallBack =>
    if n.control_body then
      ({ n with body_pid := c.body.PositionSPCallBack n.body_pid msg }, [Event.callback cb msg])
    else (n, [])
  | Callback.VelocitySPCallBack =>
    if n.control_body then
      ({ n with body_pid := c.body.VelocitySPCallBack n.body_pid msg }, [Event.callback cb msg])
    else (n, [])
  | Callback.WrenchSPCallBack =>
    if n.control_body then
      ({ n with body_pid := c.body.WrenchSPCallBack n.body_pid msg }, [Event.callback cb msg])
    else (n, [])
  | Callback.BodyMeasureCallBack =>
    if n.control_body then
      ({ n with body_pid := c.body.MeasureCallBack n.body_pid msg }, [Event.callback cb msg])
    else (n, [])
  | Callback.SetpointCallBack =>
    if n.control_joints then
      ({ n with joint_pid := c.joint.SetpointCallBack n.joint_pid msg }, [Event.callback cb msg])
    else (n, [])
  | Callback.JointMeasureCallBack =>
    if n.control_joints then
      ({ n with joint_pid := c.joint.MeasureCallBack n.joint_pid msg }, [Event.callback cb msg])
    else (n, [])

/-- Line 170: `ros::spinOnce()` on the messages waiting for this node, in order. -/
def spinOnce (c : Classes B J Mp W T E Msg) (n : Node B J Mp) :
    List (Callback × Msg) → Node B J Mp × List (Event W T E Msg)
  | [] => (n, [])
  | (cb, msg) :: rest =>
    let r := dispatch c n cb msg
    let s := spinOnce c r.1 rest
    (s.1, r.2 ++ s.2)

/-- Lines 153-171: one round of the `while(ros::ok())` body, which ends in
`loop.sleep()` on the rate of line 72. -/
def tick (c : Classes B J Mp W T E Msg) (n : Node B J Mp) (inbound : List (Callback × Msg)) :
    Node B J Mp × List (Event W T E Msg) :=
  let b := tickBody c n
  let j := tickJoints c b.1
  let s := spinOnce c j.1 inbound
  (s.1, b.2 ++ j.2 ++ s.2 ++ [Event.loopSleep loop.expected_cycle_time])

/-- One executed round of the loop: the state it started from, the messages its
`spinOnce` found waiting, and the calls it made. -/
structure Tick (B J Mp W T E Msg : Type) where
  node : Node B J Mp
  inbound : List (Callback × Msg)
  events : List (Event W T E Msg)
deriving DecidableEq, Repr

/-- Lines 151-172: `while(ros::ok())`, one round per element of `spins` (the rounds
for which `ros::ok()` held, each with the messages waiting at its `spinOnce`). -/
def controlLoop (c : Classes B J Mp W T E Msg) (n : Node B J Mp) :
    List (List (Callback × Msg)) → List (Tick B J Mp W T E Msg)
  | [] => []
  | inbound :: rest =>
    let r := tick c n inbound
    { node := n, inbound := inbound, events := r.2 } :: controlLoop c r.1 rest

/-- A run of `main`: the calls made before the control loop, and the rounds of the
control loop. -/
structure Run (B J Mp W T E Msg : Type) where
  startup : List (Event W T E Msg)
  ticks : List (Tick B J Mp W T E Msg)
deriving DecidableEq, Repr

/-- The function `main`. A run that never leaves the wait loop makes no call. -/
def main (c : Classes B J Mp W T E Msg) (polls : List Params)
    (spins : List (List (Callback × Msg))) : Run B J Mp W T E Msg :=
  match waitForConfig polls with
  | none => { startup := [], ticks := [] }
  | some p =>
    let s := configure c p
    { startup := s.2, ticks := controlLoop c s.1 spins }

/-- All calls of a run in program order. -/
def Run.trace (r : Run B J Mp W T E Msg) : List (Event W T E Msg) :=
  r.startup ++ (r.ticks.map (fun t => t.events)).flatten

/-! ## Reading a list of calls -/

/-- The payload of a body publication. -/
def Event.bodyCommand? : Event W T E Msg → Option (BodyCommand W T)
  | Event.bodyPublish payload => some payload
  | _ => none

/-- The payload of a joint publication. -/
def Event.jointCommand? : Event W T E Msg → Option E
  | Event.jointPublish payload => some payload
  | _ => none

/-- The wrench handed to the thruster mapper. -/
def Event.mapped? : Event W T E Msg → Option W
  | Event.wrench2Thrusters w => some w
  | _ => none

/-- Body commands published by a list of calls, in order. -/
def bodyCommands (es : List (Event W T E Msg)) : List (BodyCommand W T) :=
  es.filterMap Event.bodyCommand?

/-- Joint commands published by a list of calls, in order. -/
def jointCommands (es : List (Event W T E Msg)) : List E :=
  es.filterMap Event.jointCommand?

/-- Wrenches handed to `mapper.wrench2Thrusters` by a list of calls, in order. -/
def mapperCalls (es : List (Event W T E Msg)) : List W :=
  es.filterMap Event.mapped?

/-- Whether a call is `ros::spinOnce()` running the callback `cb`. -/
def Event.delivers (cb : Callback) : Event W T E Msg → Bool
  | Event.callback cb2 _ => decide (cb2 = cb)
  | _ => false

/-- Whether a list of calls runs the callback `cb`. -/
def delivered (cb : Callback) (es : List (Event W T E Msg)) : Bool :=
  es.any (Event.delivers cb)

/-- The mode handed to `body_pid.Init`. -/
def Event.bodyMode? : Event W T E Msg → Option String
  | Event.bodyInit _ _ default_mode => some default_mode
  | _ => none

/-- The mode handed to `joint_pid.Init`. -/
def Event.jointMode? : Event W T E Msg → Option String
  | Event.jointInit _ default_mode => some default_mode
  | _ => none

/-- The tick interval handed to either `Init`. -/
def Event.interval? : Event W T E Msg → Option Duration
  | Event.bodyInit dt _ _ => some dt
  | Event.jointInit dt _ => some dt
  | _ => none

/-- Whether a call is one of those `main` makes before the control loop (lines 77-149),
as opposed to those of the loop body (lines 153-170). -/
def Event.atStartup : Event W T E Msg → Bool
  | Event.bodyInit _ _ _ => true
  | Event.jointInit _ _ => true
  | Event.subscribe _ _ => true
  | Event.bodyAdvertise _ => true
  | Event.jointAdvertise _ => true
  | Event.mapperParse _ => true
  | Event.bodyUpdatePID _ => false
  | Event.jointUpdatePID _ => false
  | Event.wrench2Thrusters _ => false
  | Event.bodyPublish _ => false
  | Event.jointPublish _ => false
  | Event.callback _ _ => false
  | Event.loopSleep _ => false

/-- The outcome of a `mapper.parse` call. -/
def Event.parsed? : Event W T E Msg → Option Bool
  | Event.mapperParse ok => some ok
  | _ => none

/-- The expected cycle time of the rate a `loop.sleep()` call sleeps on. -/
def Event.slept? : Event W T E Msg → Option Duration
  | Event.loopSleep expected_cycle_time => some expected_cycle_time
  | _ => none

/-- Outcomes of the `mapper.parse` calls in a list of calls, in order. -/
def parseCalls (es : List (Event W T E Msg)) : List Bool :=
  es.filterMap Event.parsed?

/-- Expected cycle times of the `loop.sleep()` calls in a list of calls, in order. -/
def sleeps (es : List (Event W T E Msg)) : List Duration :=
  es.filterMap Event.slept?

/-- Modes handed to `body_pid.Init` by a list of calls, in order. -/
def bodyModes (es : List (Event W T E Msg)) : List String :=
  es.filterMap Event.bodyMode?

/-- Modes handed to `joint_pid.Init` by a list of calls, in order. -/
def jointModes (es : List (Event W T E Msg)) : List String :=
  es.filterMap Event.jointMode?

/-- Tick intervals handed to the two `Init` members by a list of calls, in order. -/
def intervals (es : List (Event W T E Msg)) : List Duration :=
  es.filterMap Event.interval?

end Driver

/-! ## The collaborating classes as the specification describes them -/

section Spec

variable {Mp W T E Msg Th : Type}

/-- Modelled from the spec: the state of BodyController and of JointController, whose
classes `FreeFloatingBodyPids` and `FreeFloatingJointPids` are not among the sources.
It holds MeasurementState ("the most recently received feedback", absent until the
first one), SetpointState with one channel per inbound stream, and the ControlMode
given at initialisation. The PID numerics are not part of it. -/
structure SpecPids (Msg : Type) where
  measurement : Option Msg
  position_sp : Option Msg
  velocity_sp : Option Msg
  effort_sp : Option Msg
  mode : String
deriving DecidableEq, Repr

/-- Modelled from the spec: the controller before any message, what the default
constructor of the absent classes leaves. -/
def SpecPids.construct : SpecPids Msg :=
  { measurement := none, position_sp := none, velocity_sp := none, effort_sp := none,
    mode := "" }

/-- Modelled from the spec: `updateStep` of the absent controller classes, which
"returns false if no measurement has ever been received" and has a command from then
on; only the flag is modelled. -/
def SpecPids.updateStep (s : SpecPids Msg) : Bool × SpecPids Msg :=
  (s.measurement.isSome, s)

/-- Modelled from the spec: BodyController (`FreeFloatingBodyPids`, absent from the
sources) behind the members `main` uses. `onMeasurement` and the three setpoint
handlers "update the corresponding channel" and do nothing else; the wrench computed
from the state is the parameter `wrench`. -/
def specBody (wrench : SpecPids Msg → W) : BodyPids (SpecPids Msg) W Msg where
  construct := SpecPids.construct
  Init := fun s _ _ _ default_mode => { s with mode := default_mode }
  UpdatePID := SpecPids.updateStep
  WrenchCommand := wrench
  PositionSPCallBack := fun s m => { s with position_sp := some m }
  VelocitySPCallBack := fun s m => { s with velocity_sp := some m }
  WrenchSPCallBack := fun s m => { s with effort_sp := some m }
  MeasureCallBack := fun s m => { s with measurement := some m }

/-- Modelled from the spec: JointController (`FreeFloatingJointPids`, absent from the
sources), "structurally identical to BodyController", behind the members `main` uses;
the effort vector computed from the state is the parameter `effort`. -/
def specJoint (effort : SpecPids Msg → E) : JointPids (SpecPids Msg) E Msg where
  construct := SpecPids.construct
  Init := fun s _ _ default_mode => { s with mode := default_mode }
  UpdatePID := SpecPids.updateStep
  EffortCommand := effort
  SetpointCallBack := fun s m => { s with position_sp := some m }
  MeasureCallBack := fun s m => { s with measurement := some m }

/-- Modelled from the spec: the ThrusterModel list held by ThrusterMapper
(`ffg::ThrusterMapper`, absent from the sources). -/
structure SpecMapper (Th : Type) where
  thrusters : List Th
deriving DecidableEq, Repr

/-- Modelled from the spec: `parse(config) -> Result<Unit, ConfigError>`, which "fails
if thruster count is zero or any thruster pose/direction entry is malformed". A
malformed entry of the configuration is `none`; a failed parse leaves the mapper as it
was. -/
def SpecMapper.parse (config : List (Option Th)) (m : SpecMapper Th) :
    Bool × SpecMapper Th :=
  if config.isEmpty || config.any Option.isNone then (false, m)
  else (true, { thrusters := config.filterMap id })

/-- Modelled from the spec: ThrusterMapper behind the members `main` uses, reading the
thruster configuration `config`; the allocation of a wrench to the thrusters
(pseudo-inverse and clamping) is the parameter `allocate`. -/
def specMapper (config : List (Option Th)) (allocate : List Th → W → T) :
    ThrusterMapper (SpecMapper Th) W T where
  construct := { thrusters := [] }
  parse := SpecMapper.parse config
  wrench2Thrusters := fun m w => allocate m.thrusters w

/-- Modelled from the spec: the body and joint controllers of the specification next
to any thruster mapper. -/
def specClasses (wrench : SpecPids Msg → W) (effort : SpecPids Msg → E)
    (mapper : ThrusterMapper Mp W T) :
    Classes (SpecPids Msg) (SpecPids Msg) Mp W T E Msg where
  body := specBody wrench
  joint := specJoint effort
  mapper := mapper

end Spec

/-! ## Sample data -/

/-- A parameter server with nothing on it. -/
def noParams : Params :=
  { config_body := false, joints_name := none, control_type := none, use_pid := none,
    position_setpoint := none, velocity_setpoint := none, wrench_setpoint := none,
    state := none, command := none, axes := none, joints_setpoint := none,
    joints_state := none, joints_command := none, body_control := none,
    joint_control := none }

/-- A thruster-actuated vehicle with three controlled axes and two joints, PID on. -/
def thrusterParams : Params :=
  { noParams with
    config_body := true, joints_name := some ["shoulder", "elbow"],
    control_type := some "thruster", use_pid := some true, axes := some ["x", "z", "yaw"] }

/-- The same vehicle, wrench-actuated, with a velocity override for the body. -/
def wrenchParams : Params :=
  { noParams with
    config_body := true, joints_name := some ["shoulder", "elbow"],
    axes := some ["x", "z", "yaw"], body_control := some "velocity" }

/-- The thruster-actuated vehicle with a velocity override for the body. -/
def thrusterVelocityParams : Params :=
  { thrusterParams with body_control := some "velocity" }

/-- Sample classes: the controllers of the specification over natural-number
payloads, and a thruster mapper configured with the thruster limits `config` that
hands every thruster the wrench capped at its limit. -/
def sampleClasses (config : List (Option Nat)) :
    Classes (SpecPids Nat) (SpecPids Nat) (SpecMapper Nat) Nat (List Nat) Nat Nat :=
  specClasses (fun s => param s.measurement 0) (fun s => param s.measurement 0)
    (specMapper config (fun limits w => limits.map (fun limit => min w limit)))

/-- Two rounds of the loop: the first measurements arrive in the first round. -/
def sampleSpins : List (List (Callback × Nat)) :=
  [[(Callback.BodyMeasureCallBack, 5), (Callback.JointMeasureCallBack, 3)], []]

/-- The second round of `main` on `thrusterParams` with thruster limits 4 and 9 and
the messages of `sampleSpins`: both controllers have their measurement. -/
def sampleRound :
    Tick (SpecPids Nat) (SpecPids Nat) (SpecMapper Nat) Nat (List Nat) Nat Nat :=
  { node :=
      { control_body := true, control_joints := true, output_thrusters := true,
        body_pid :=
          { measurement := some 5, position_sp := none, velocity_sp := none,
            effort_sp := none, mode := "position" },
        joint_pid :=
          { measurement := some 3, position_sp := none, velocity_sp := none,
            effort_sp := none, mode := "position" },
        mapper := { thrusters := [4, 9] } },
    inbound := [],
    events :=
      [Event.bodyUpdatePID true, Event.wrench2Thrusters 5,
       Event.bodyPublish (BodyCommand.thrusters [4, 5]),
       Event.jointUpdatePID true, Event.jointPublish 3,
       Event.loopSleep loop.expected_cycle_time] }

/-- The first round of the same run: no measurement yet, both arrive in its
`spinOnce`. -/
def sampleFirstRound :
    Tick (SpecPids Nat) (SpecPids Nat) (SpecMapper Nat) Nat (List Nat) Nat Nat :=
  { node :=
      { control_body := true, control_joints := true, output_thrusters := true,
        body_pid :=
          { measurement := none, position_sp := none, velocity_sp := none,
            effort_sp := none, mode := "position" },
        joint_pid :=
          { measurement := none, position_sp := none, velocity_sp := none,
            effort_sp := none, mode := "position" },
        mapper := { thrusters := [4, 9] } },
    inbound := [(Callback.BodyMeasureCallBack, 5), (Callback.JointMeasureCallBack, 3)],
    events :=
      [Event.bodyUpdatePID false, Event.jointUpdatePID false,
       Event.callback Callback.BodyMeasureCallBack 5,
       Event.callback Callback.JointMeasureCallBack 3,
       Event.loopSleep loop.expected_cycle_time] }

/-! ## Properties of the pieces -/

section Lemmas

variable {B J Mp W T E Msg : Type}

theorem dt_nsec : dt.nsec = 10000000 := by
  have h : ((1 : ℚ) / 100 * 1000000000) = ((10000000 : ℤ) : ℚ) := by norm_num
  simp only [dt, Duration.fromSec]
  rw [h, round_intCast]

/-- The body step leaves everything but the body controller alone. -/
theorem tickBody_frame (c : Classes B J Mp W T E Msg) (n : Node B J Mp) :
    (tickBody c n).1.control_body = n.control_body ∧
    (tickBody c n).1.control_joints = n.control_joints ∧
    (tickBody c n).1.output_thrusters = n.output_thrusters ∧
    (tickBody c n).1.joint_pid = n.joint_pid ∧
    (tickBody c n).1.mapper = n.mapper := by
  cases h1 : n.control_body <;> cases h2 : (c.body.UpdatePID n.body_pid).1 <;>
    cases h3 : n.output_thrusters <;> simp [tickBody, h1, h2, h3]

theorem tickBody_bodyCommands (c : Classes B J Mp W T E Msg) (n : Node B J Mp) :
    bodyCommands (tickBody c n).2 =
      if n.control_body && (c.body.UpdatePID n.body_pid).1 then
        [if n.output_thrusters then
           BodyCommand.thrusters (c.mapper.wrench2Thrusters n.mapper
             (c.body.WrenchCommand (c.body.UpdatePID n.body_pid).2))
         else BodyCommand.wrench (c.body.WrenchCommand (c.body.UpdatePID n.body_pid).2)]
      else [] := by
  cases h1 : n.control_body <;> cases h2 : (c.body.UpdatePID n.body_pid).1 <;>
    cases h3 : n.output_thrusters <;>
    simp [tickBody, bodyCommands, Event.bodyCommand?, h1, h2, h3]

theorem tickBody_mapperCalls (c : Classes B J Mp W T E Msg) (n : Node B J Mp) :
    mapperCalls (tickBody c n).2 =
      if n.control_body && (c.body.UpdatePID n.body_pid).1 && n.output_thrusters then
        [c.body.WrenchCommand (c.body.UpdatePID n.body_pid).2]
      else [] := by
  cases h1 : n.control_body <;> cases h2 : (c.body.UpdatePID n.body_pid).1 <;>
    cases h3 : n.output_thrusters <;>
    simp [tickBody, mapperCalls, Event.mapped?, h1, h2, h3]

theorem tickBody_jointCommands (c : Classes B J Mp W T E Msg) (n : Node B J Mp) :
    jointCommands (tickBody c n).2 = [] := by
  cases h1 : n.control_body <;> cases h2 : (c.body.UpdatePID n.body_pid).1 <;>
    cases h3 : n.output_thrusters <;>
    simp [tickBody, jointCommands, Event.jointCommand?, h1, h2, h3]

/-- The joint step leaves everything but the joint controller alone. -/
theorem tickJoints_frame (c : Classes B J Mp W T E Msg) (n : Node B J Mp) :
    (tickJoints c n).1.control_body = n.control_body ∧
    (tickJoints c n).1.control_joints = n.control_joints ∧
    (tickJoints c n).1.output_thrusters = n.output_thrusters ∧
    (tickJoints c n).1.body_pid = n.body_pid ∧
    (tickJoints c n).1.mapper = n.mapper := by
  cases h1 : n.control_joints <;> cases h2 : (c.joint.UpdatePID n.joint_pid).1 <;>
    simp [tickJoints, h1, h2]

theorem tickJoints_jointCommands (c : Classes B J Mp W T E Msg) (n : Node B J Mp) :
    jointCommands (tickJoints c n).2 =
      if n.control_joints && (c.joint.UpdatePID n.joint_pid).1 then
        [c.joint.EffortCommand (c.joint.UpdatePID n.joint_pid).2]
      else [] := by
  cases h1 : n.control_joints <;> cases h2 : (c.joint.UpdatePID n.joint_pid).1 <;>
    simp [tickJoints, jointCommands, Event.jointCommand?, h1, h2]

theorem tickJoints_bodyCommands (c : Classes B J Mp W T E Msg) (n : Node B J Mp) :
    bodyCommands (tickJoints c n).2 = [] ∧ mapperCalls (tickJoints c n).2 = [] := by
  cases h1 : n.control_joints <;> cases h2 : (c.joint.UpdatePID n.joint_pid).1 <;>
    simp [tickJoints, bodyCommands, mapperCalls, Event.bodyCommand?, Event.mapped?, h1, h2]

theorem dispatch_frame (c : Classes B J Mp W T E Msg) (n : Node B J Mp) (cb : Callback)
    (msg : Msg) :
    (dispatch c n cb msg).1.control_body = n.control_body ∧
    (dispatch c n cb msg).1.control_joints = n.control_joints ∧
    (dispatch c n cb msg).1.output_thrusters = n.output_thrusters ∧
    (dispatch c n cb msg).1.mapper = n.mapper := by
  cases h1 : n.control_body <;> cases h2 : n.control_joints <;> cases cb <;>
    simp [dispatch, h1, h2]

theorem dispatch_quiet (c : Classes B J Mp W T E Msg) (n : Node B J Mp) (cb : Callback)
    (msg : Msg) :
    bodyCommands (dispatch c n cb msg).2 = [] ∧
    jointCommands (dispatch c n cb msg).2 = [] ∧
    mapperCalls (dispatch c n cb msg).2 = [] := by
  cases h1 : n.control_body <;> cases h2 : n.control_joints <;> cases cb <;>
    simp [dispatch, bodyCommands, jointCommands, mapperCalls, Event.bodyCommand?,
      Event.jointCommand?, Event.mapped?, h1, h2]

theorem spinOnce_frame (c : Classes B J Mp W T E Msg) (inbound : List (Callback × Msg)) :
    ∀ n : Node B J Mp,
    (spinOnce c n inbound).1.control_body = n.control_body ∧
    (spinOnce c n inbound).1.control_joints = n.control_joints ∧
    (spinOnce c n inbound).1.output_thrusters = n.output_thrusters ∧
    (spinOnce c n inbound).1.mapper = n.mapper := by
  induction inbound with
  | nil => intro n; simp [spinOnce]
  | cons m rest ih =>
    intro n
    obtain ⟨cb, msg⟩ := m
    have h := dispatch_frame c n cb msg
    have h2 := ih (dispatch c n cb msg).1
    simp only [spinOnce]
    exact ⟨h2.1.trans h.1, h2.2.1.trans h.2.1, h2.2.2.1.trans h.2.2.1, h2.2.2.2.trans h.2.2.2⟩

theorem spinOnce_quiet (c : Classes B J Mp W T E Msg) (inbound : List (Callback × Msg)) :
    ∀ n : Node B J Mp,
    bodyCommands (spinOnce c n inbound).2 = [] ∧
    jointCommands (spinOnce c n inbound).2 = [] ∧
    mapperCalls (spinOnce c n inbound).2 = [] := by
  induction inbound with
  | nil => intro n; simp [spinOnce, bodyCommands, jointCommands, mapperCalls]
  | cons m rest ih =>
    intro n
    obtain ⟨cb, msg⟩ := m
    have h := dispatch_quiet c n cb msg
    have h2 := ih (dispatch c n cb msg).1
    simp only [spinOnce, bodyCommands, jointCommands, mapperCalls, List.filterMap_append] at *
    simp [h, h2]


theorem tick_frame (c : Classes B J Mp W T E Msg) (n : Node B J Mp)
    (inbound : List (Callback × Msg)) :
    (tick c n inbound).1.control_body = n.control_body ∧
    (tick c n inbound).1.control_joints = n.control_joints ∧
    (tick c n inbound).1.output_thrusters = n.output_thrusters ∧
    (tick c n inbound).1.mapper = n.mapper := by
  have hb := tickBody_frame c n
  have hj := tickJoints_frame c (tickBody c n).1
  have hs := spinOnce_frame c inbound (tickJoints c (tickBody c n).1).1
  simp only [tick]
  exact ⟨hs.1.trans (hj.1.trans hb.1), hs.2.1.trans (hj.2.1.trans hb.2.1),
    hs.2.2.1.trans (hj.2.2.1.trans hb.2.2.1), hs.2.2.2.trans (hj.2.2.2.2.trans hb.2.2.2.2)⟩

theorem tick_bodyCommands (c : Classes B J Mp W T E Msg) (n : Node B J Mp)
    (inbound : List (Callback × Msg)) :
    bodyCommands (tick c n inbound).2 =
      if n.control_body && (c.body.UpdatePID n.body_pid).1 then
        [if n.output_thrusters then
           BodyCommand.thrusters (c.mapper.wrench2Thrusters n.mapper
             (c.body.WrenchCommand (c.body.UpdatePID n.body_pid).2))
         else BodyCommand.wrench (c.body.WrenchCommand (c.body.UpdatePID n.body_pid).2)]
      else [] := by
  have hb := tickBody_bodyCommands c n
  have hj := (tickJoints_bodyCommands c (tickBody c n).1).1
  have hs := (spinOnce_quiet c inbound (tickJoints c (tickBody c n).1).1).1
  simp only [bodyCommands] at hb hj hs
  simp only [tick, bodyCommands, List.filterMap_append, hb, hj, hs, List.append_nil,
    List.filterMap_cons, List.filterMap_nil, Event.bodyCommand?]

theorem tick_mapperCalls (c : Classes B J Mp W T E Msg) (n : Node B J Mp)
    (inbound : List (Callback × Msg)) :
    mapperCalls (tick c n inbound).2 =
      if n.control_body && (c.body.UpdatePID n.body_pid).1 && n.output_thrusters then
        [c.body.WrenchCommand (c.body.UpdatePID n.body_pid).2]
      else [] := by
  have hb := tickBody_mapperCalls c n
  have hj := (tickJoints_bodyCommands c (tickBody c n).1).2
  have hs := (spinOnce_quiet c inbound (tickJoints c (tickBody c n).1).1).2.2
  simp only [mapperCalls] at hb hj hs
  simp only [tick, mapperCalls, List.filterMap_append, hb, hj, hs, List.append_nil,
    List.filterMap_cons, List.filterMap_nil, Event.mapped?]

theorem tick_jointCommands (c : Classes B J Mp W T E Msg) (n : Node B J Mp)
    (inbound : List (Callback × Msg)) :
    jointCommands (tick c n inbound).2 =
      if n.control_joints && (c.joint.UpdatePID n.joint_pid).1 then
        [c.joint.EffortCommand (c.joint.UpdatePID n.joint_pid).2]
      else [] := by
  have hb := tickBody_jointCommands c n
  have hf := tickBody_frame c n
  have hj := tickJoints_jointCommands c (tickBody c n).1
  have hs := (spinOnce_quiet c inbound (tickJoints c (tickBody c n).1).1).2.1
  rw [hf.2.1, hf.2.2.2.1] at hj
  simp only [jointCommands] at hb hj hs
  simp only [tick, jointCommands, List.filterMap_append, hb, hj, hs, List.append_nil,
    List.nil_append, List.filterMap_cons, List.filterMap_nil, Event.jointCommand?]

theorem controlLoop_length (c : Classes B J Mp W T E Msg) (spins : List (List (Callback × Msg))) :
    ∀ n : Node B J Mp, (controlLoop c n spins).length = spins.length := by
  induction spins with
  | nil => intro n; rfl
  | cons inbound rest ih => intro n; simp [controlLoop, ih]

/-- Every round of the loop is `tick` on the state it started from, and the three
flags and the mapper are those the loop was entered with. -/
theorem controlLoop_mem (c : Classes B J Mp W T E Msg) (spins : List (List (Callback × Msg))) :
    ∀ (n : Node B J Mp) (t : Tick B J Mp W T E Msg), t ∈ controlLoop c n spins →
      t.events = (tick c t.node t.inbound).2 ∧
      t.node.control_body = n.control_body ∧
      t.node.control_joints = n.control_joints ∧
      t.node.output_thrusters = n.output_thrusters ∧
      t.node.mapper = n.mapper := by
  induction spins with
  | nil => intro n t ht; simp [controlLoop] at ht
  | cons inbound rest ih =>
    intro n t ht
    simp only [controlLoop, List.mem_cons] at ht
    rcases ht with rfl | ht
    · exact ⟨rfl, rfl, rfl, rfl, rfl⟩
    · have h := ih (tick c n inbound).1 t ht
      have hf := tick_frame c n inbound
      exact ⟨h.1, h.2.1.trans hf.1, h.2.2.1.trans hf.2.1, h.2.2.2.1.trans hf.2.2.1,
        h.2.2.2.2.trans hf.2.2.2⟩

theorem main_of_wait (c : Classes B J Mp W T E Msg) (polls : List Params) (p : Params)
    (spins : List (List (Callback × Msg))) (hp : waitForConfig polls = some p) :
    main c polls spins =
      { startup := (configure c p).2, ticks := controlLoop c (configure c p).1 spins } := by
  simp [main, hp]

theorem main_of_no_config (c : Classes B J Mp W T E Msg) (polls : List Params)
    (spins : List (List (Callback × Msg))) (hp : waitForConfig polls = none) :
    main c polls spins = { startup := [], ticks := [] } := by
  simp [main, hp]

/-- A round of a run of `main` is a round of the loop entered from `configure`. -/
theorem main_ticks_mem (c : Classes B J Mp W T E Msg) (polls : List Params)
    (spins : List (List (Callback × Msg))) (t : Tick B J Mp W T E Msg)
    (ht : t ∈ (main c polls spins).ticks) :
    ∃ p, waitForConfig polls = some p ∧ t ∈ controlLoop c (configure c p).1 spins := by
  cases hp : waitForConfig polls with
  | none => rw [main_of_no_config c polls spins hp] at ht; simp at ht
  | some p => rw [main_of_wait c polls p spins hp] at ht; exact ⟨p, rfl, ht⟩

theorem recheck_output_thrusters (p : Params) (b : Bool) :
    (recheckControlBody p b).2 = decide (p.control_type = some "thruster") := by
  unfold recheckControlBody
  cases h : p.control_type with
  | none => simp
  | some v => by_cases hv : v = "thruster" <;> simp [hv]

theorem recheck_control_body_thruster (p : Params) (b : Bool)
    (h : p.control_type = some "thruster") :
    (recheckControlBody p b).1 = param p.use_pid false := by
  simp [recheckControlBody, h]

theorem delivered_append (cb : Callback) (l1 l2 : List (Event W T E Msg)) :
    delivered cb (l1 ++ l2) = (delivered cb l1 || delivered cb l2) := by
  simp [delivered, List.any_append]

theorem tickBody_delivered (c : Classes B J Mp W T E Msg) (n : Node B J Mp) (cb : Callback) :
    delivered cb (tickBody c n).2 = false := by
  cases h1 : n.control_body <;> cases h2 : (c.body.UpdatePID n.body_pid).1 <;>
    cases h3 : n.output_thrusters <;>
    simp [tickBody, delivered, Event.delivers, h1, h2, h3]

theorem tickJoints_delivered (c : Classes B J Mp W T E Msg) (n : Node B J Mp)
    (cb : Callback) : delivered cb (tickJoints c n).2 = false := by
  cases h1 : n.control_joints <;> cases h2 : (c.joint.UpdatePID n.joint_pid).1 <;>
    simp [tickJoints, delivered, Event.delivers, h1, h2]

theorem tick_delivered (c : Classes B J Mp W T E Msg) (n : Node B J Mp)
    (inbound : List (Callback × Msg)) (cb : Callback) :
    delivered cb (tick c n inbound).2 =
      delivered cb (spinOnce c (tickJoints c (tickBody c n).1).1 inbound).2 := by
  have h : delivered cb [(Event.loopSleep loop.expected_cycle_time : Event W T E Msg)] =
      false := rfl
  simp only [tick, delivered_append, tickBody_delivered, tickJoints_delivered, h,
    Bool.false_or, Bool.or_false]

/-- A callback runs only under the flag under which it was subscribed. -/
theorem dispatch_delivered (c : Classes B J Mp W T E Msg) (n : Node B J Mp) (cb : Callback)
    (msg : Msg) :
    (delivered Callback.BodyMeasureCallBack (dispatch c n cb msg).2 = true →
      n.control_body = true) ∧
    (delivered Callback.JointMeasureCallBack (dispatch c n cb msg).2 = true →
      n.control_joints = true) := by
  cases h1 : n.control_body <;> cases h2 : n.control_joints <;> cases cb <;>
    simp [dispatch, delivered, Event.delivers, h1, h2]

theorem spinOnce_delivered (c : Classes B J Mp W T E Msg) (inbound : List (Callback × Msg)) :
    ∀ n : Node B J Mp,
    (delivered Callback.BodyMeasureCallBack (spinOnce c n inbound).2 = true →
      n.control_body = true) ∧
    (delivered Callback.JointMeasureCallBack (spinOnce c n inbound).2 = true →
      n.control_joints = true) := by
  induction inbound with
  | nil => intro n; simp [spinOnce, delivered]
  | cons m rest ih =>
    intro n
    obtain ⟨cb, msg⟩ := m
    have hd := dispatch_delivered c n cb msg
    have hf := dispatch_frame c n cb msg
    have hr := ih (dispatch c n cb msg).1
    simp only [spinOnce, delivered_append, Bool.or_eq_true]
    refine ⟨fun h => ?_, fun h => ?_⟩
    · rcases h with h | h
      · exact hd.1 h
      · exact hf.1 ▸ hr.1 h
    · rcases h with h | h
      · exact hd.2 h
      · exact hf.2.1 ▸ hr.2 h

theorem tick_delivered_flag (c : Classes B J Mp W T E Msg) (n : Node B J Mp)
    (inbound : List (Callback × Msg)) :
    (delivered Callback.BodyMeasureCallBack (tick c n inbound).2 = true →
      n.control_body = true) ∧
    (delivered Callback.JointMeasureCallBack (tick c n inbound).2 = true →
      n.control_joints = true) := by
  have hb := tickBody_frame c n
  have hj := tickJoints_frame c (tickBody c n).1
  have hs := spinOnce_delivered c inbound (tickJoints c (tickBody c n).1).1
  rw [tick_delivered, tick_delivered]
  exact ⟨fun h => (hs.1 h ▸ (hj.1.trans hb.1).symm),
    fun h => (hs.2 h ▸ (hj.2.1.trans hb.2.1).symm)⟩

/-- If a Boolean reading `f` of the state becomes true exactly by a round running the
callback `cb`, then at the start of round `i` it is true if and only if it was true on
entry to the loop or an earlier round ran `cb`. -/
theorem controlLoop_received (c : Classes B J Mp W T E Msg) (f : Node B J Mp → Bool) (cb : Callback)
    (hstep : ∀ n inbound, f (tick c n inbound).1 = (f n || delivered cb (tick c n inbound).2))
    (spins : List (List (Callback × Msg))) :
    ∀ (n : Node B J Mp) (i : Nat) (ti : Tick B J Mp W T E Msg),
      (controlLoop c n spins)[i]? = some ti →
      (f ti.node = true ↔
        (f n = true ∨ ∃ j tj, j < i ∧ (controlLoop c n spins)[j]? = some tj ∧
          delivered cb tj.events = true)) := by
  induction spins with
  | nil => intro n i ti h; simp [controlLoop] at h
  | cons inbound rest ih =>
    intro n i ti h
    cases i with
    | zero =>
      simp only [controlLoop, List.getElem?_cons_zero, Option.some.injEq] at h
      subst h
      constructor
      · intro h1; exact Or.inl h1
      · rintro (h1 | ⟨j, tj, hj, -, -⟩)
        · exact h1
        · exact absurd hj (Nat.not_lt_zero j)
    | succ i =>
      simp only [controlLoop, List.getElem?_cons_succ] at h
      have hi := ih (tick c n inbound).1 i ti h
      have hs := hstep n inbound
      constructor
      · intro h1
        rcases hi.mp h1 with h2 | ⟨j, tj, hj, hget, hd⟩
        · rw [hs, Bool.or_eq_true] at h2
          rcases h2 with h2 | h2
          · exact Or.inl h2
          · exact Or.inr ⟨0, { node := n, inbound := inbound, events := (tick c n inbound).2 },
              Nat.succ_pos i, by simp [controlLoop], h2⟩
        · exact Or.inr ⟨j + 1, tj, Nat.succ_lt_succ hj, by simpa [controlLoop] using hget, hd⟩
      · rintro (h1 | ⟨j, tj, hj, hget, hd⟩)
        · exact hi.mpr (Or.inl (by rw [hs, h1]; rfl))
        · cases j with
          | zero =>
            simp only [controlLoop, List.getElem?_cons_zero, Option.some.injEq] at hget
            subst hget
            exact hi.mpr (Or.inl (by rw [hs]; simp only [] at hd; rw [hd]; simp))
          | succ j =>
            simp only [controlLoop, List.getElem?_cons_succ] at hget
            exact hi.mpr (Or.inr ⟨j, tj, Nat.lt_of_succ_lt_succ hj, hget, hd⟩)

/-- An entry of a list at some index is a member of the list. -/
theorem mem_of_getElem_some {α : Type} (l : List α) (i : Nat) (a : α)
    (h : l[i]? = some a) : a ∈ l := by
  rw [List.getElem?_eq_some] at h
  obtain ⟨hi, rfl⟩ := h
  exact List.getElem_mem _

theorem controlLoop_getElem_mem (c : Classes B J Mp W T E Msg) (n : Node B J Mp)
    (spins : List (List (Callback × Msg))) (i : Nat) (t : Tick B J Mp W T E Msg)
    (h : (controlLoop c n spins)[i]? = some t) : t ∈ controlLoop c n spins := by
  rw [List.getElem?_eq_some] at h
  obtain ⟨hi, rfl⟩ := h
  exact List.getElem_mem _

/-- Every call of a round of the loop is a call of the loop body. -/
theorem tick_not_atStartup (c : Classes B J Mp W T E Msg) (n : Node B J Mp)
    (inbound : List (Callback × Msg)) :
    ∀ e ∈ (tick c n inbound).2, e.atStartup = false := by
  have hb : ∀ e ∈ (tickBody c n).2, e.atStartup = false := by
    cases h1 : n.control_body <;> cases h2 : (c.body.UpdatePID n.body_pid).1 <;>
      cases h3 : n.output_thrusters <;> simp [tickBody, Event.atStartup, h1, h2, h3]
  have hj : ∀ m : Node B J Mp, ∀ e ∈ (tickJoints c m).2, e.atStartup = false := by
    intro m
    cases h1 : m.control_joints <;> cases h2 : (c.joint.UpdatePID m.joint_pid).1 <;>
      simp [tickJoints, Event.atStartup, h1, h2]
  have hd : ∀ (m : Node B J Mp) (cb : Callback) (msg : Msg),
      ∀ e ∈ (dispatch c m cb msg).2, e.atStartup = false := by
    intro m cb msg
    cases h1 : m.control_body <;> cases h2 : m.control_joints <;> cases cb <;>
      simp [dispatch, Event.atStartup, h1, h2]
  have hs : ∀ (l : List (Callback × Msg)) (m : Node B J Mp),
      ∀ e ∈ (spinOnce c m l).2, e.atStartup = false := by
    intro l
    induction l with
    | nil => intro m e he; simp [spinOnce] at he
    | cons x rest ih =>
      intro m e he
      obtain ⟨cb, msg⟩ := x
      simp only [spinOnce, List.mem_append] at he
      rcases he with he | he
      · exact hd m cb msg e he
      · exact ih _ e he
  intro e he
  simp only [tick, List.mem_append, List.mem_singleton] at he
  rcases he with ((he | he) | he) | he
  · exact hb e he
  · exact hj _ e he
  · exact hs _ _ e he
  · rw [he]; rfl

/-- Every call made by `configure` is a start-up call. -/
theorem configure_atStartup (c : Classes B J Mp W T E Msg) (p : Params) :
    ∀ e ∈ (configure c p).2, e.atStartup = true := by
  cases h1 : (recheckControlBody p p.config_body).1 <;> cases h2 : p.joints_name.isSome <;>
    cases h3 : (recheckControlBody p p.config_body).2 <;>
    simp [configure, initBody, initJoints, initMapper, Event.atStartup, h1, h2, h3]

theorem filterMap_rounds_nil {α : Type} (g : Event W T E Msg → Option α)
    (ts : List (Tick B J Mp W T E Msg)) (h : ∀ t ∈ ts, t.events.filterMap g = []) :
    ((ts.map (fun t => t.events)).flatten).filterMap g = [] := by
  induction ts with
  | nil => rfl
  | cons t rest ih =>
    simp only [List.map_cons, List.flatten_cons, List.filterMap_append]
    rw [h t (List.mem_cons_self _ _), ih (fun u hu => h u (List.mem_cons_of_mem _ hu))]
    rfl

theorem filterMap_nil_of_none {α : Type} (g : Event W T E Msg → Option α)
    (es : List (Event W T E Msg)) (h : ∀ e ∈ es, g e = none) : es.filterMap g = [] := by
  induction es with
  | nil => rfl
  | cons e rest ih =>
    rw [List.filterMap_cons, h e (List.mem_cons_self _ _)]
    exact ih (fun u hu => h u (List.mem_cons_of_mem _ hu))

/-- A reading that sees only start-up calls finds nothing in the rounds of the loop. -/
theorem controlLoop_filterMap_startup {α : Type} (c : Classes B J Mp W T E Msg)
    (g : Event W T E Msg → Option α) (hg : ∀ e, e.atStartup = false → g e = none)
    (n : Node B J Mp) (spins : List (List (Callback × Msg))) :
    (((controlLoop c n spins).map (fun t => t.events)).flatten).filterMap g = [] := by
  apply filterMap_rounds_nil
  intro t ht
  rw [(controlLoop_mem c spins n t ht).1]
  exact filterMap_nil_of_none g _ (fun e he => hg e (tick_not_atStartup c t.node t.inbound e he))

theorem bodyMode_startup (e : Event W T E Msg) (h : e.atStartup = false) :
    e.bodyMode? = none := by
  cases e <;> simp_all [Event.atStartup, Event.bodyMode?]

theorem jointMode_startup (e : Event W T E Msg) (h : e.atStartup = false) :
    e.jointMode? = none := by
  cases e <;> simp_all [Event.atStartup, Event.jointMode?]

theorem interval_startup (e : Event W T E Msg) (h : e.atStartup = false) :
    e.interval? = none := by
  cases e <;> simp_all [Event.atStartup, Event.interval?]

theorem configure_bodyModes (c : Classes B J Mp W T E Msg) (p : Params) :
    bodyModes (configure c p).2 =
      if (configure c p).1.control_body then [getParam p.body_control "position"] else [] := by
  cases h1 : (recheckControlBody p p.config_body).1 <;> cases h2 : p.joints_name.isSome <;>
    cases h3 : (recheckControlBody p p.config_body).2 <;>
    simp [configure, initBody, initJoints, initMapper, bodyModes, Event.bodyMode?, h1, h2, h3]

theorem configure_jointModes (c : Classes B J Mp W T E Msg) (p : Params) :
    jointModes (configure c p).2 =
      if (configure c p).1.control_joints then [getParam p.joint_control "position"]
      else [] := by
  cases h1 : (recheckControlBody p p.config_body).1 <;> cases h2 : p.joints_name.isSome <;>
    cases h3 : (recheckControlBody p p.config_body).2 <;>
    simp [configure, initBody, initJoints, initMapper, jointModes, Event.jointMode?, h1, h2, h3]

theorem configure_intervals (c : Classes B J Mp W T E Msg) (p : Params) :
    intervals (configure c p).2 =
      (if (configure c p).1.control_body then [dt] else []) ++
      (if (configure c p).1.control_joints then [dt] else []) := by
  cases h1 : (recheckControlBody p p.config_body).1 <;> cases h2 : p.joints_name.isSome <;>
    cases h3 : (recheckControlBody p p.config_body).2 <;>
    simp [configure, initBody, initJoints, initMapper, intervals, Event.interval?, h1, h2, h3]

/-- What a reading of start-up calls finds in a whole run is what it finds at
start-up. -/
theorem trace_filterMap_startup {α : Type} (c : Classes B J Mp W T E Msg)
    (g : Event W T E Msg → Option α) (hg : ∀ e, e.atStartup = false → g e = none)
    (polls : List Params) (p : Params) (spins : List (List (Callback × Msg)))
    (hp : waitForConfig polls = some p) :
    (main c polls spins).trace.filterMap g = (configure c p).2.filterMap g := by
  rw [main_of_wait c polls p spins hp]
  simp only [Run.trace, List.filterMap_append]
  rw [controlLoop_filterMap_startup c g hg, List.append_nil]

theorem parsed_startup (e : Event W T E Msg) (h : e.atStartup = false) :
    e.parsed? = none := by
  cases e <;> simp_all [Event.atStartup, Event.parsed?]

theorem slept_loop (e : Event W T E Msg) (h : e.atStartup = true) :
    e.slept? = none := by
  cases e <;> simp_all [Event.atStartup, Event.slept?]

theorem configure_parseCalls (c : Classes B J Mp W T E Msg) (p : Params) :
    parseCalls (configure c p).2 =
      if (configure c p).1.output_thrusters then [(c.mapper.parse c.mapper.construct).1]
      else [] := by
  cases h1 : (recheckControlBody p p.config_body).1 <;> cases h2 : p.joints_name.isSome <;>
    cases h3 : (recheckControlBody p p.config_body).2 <;>
    simp [configure, initBody, initJoints, initMapper, parseCalls, Event.parsed?, h1, h2, h3]

/-- The body controller with which the control loop is entered: the result of `Init`
on the default-constructed object under `control_body`, that object otherwise. -/
theorem configure_body_pid (c : Classes B J Mp W T E Msg) (p : Params) :
    (configure c p).1.body_pid =
      if (configure c p).1.control_body then
        c.body.Init c.body.construct p dt (getParam p.axes [])
          (getParam p.body_control "position")
      else c.body.construct := by
  cases h1 : (recheckControlBody p p.config_body).1 <;> simp [configure, initBody, h1]

/-- The joint controller with which the control loop is entered. -/
theorem configure_joint_pid (c : Classes B J Mp W T E Msg) (p : Params) :
    (configure c p).1.joint_pid =
      if p.joints_name.isSome then
        c.joint.Init c.joint.construct p dt (getParam p.joint_control "position")
      else c.joint.construct := by
  cases h2 : p.joints_name.isSome <;> simp [configure, initJoints, h2]

/-- The mapper with which the control loop is entered. -/
theorem configure_mapper (c : Classes B J Mp W T E Msg) (p : Params) :
    (configure c p).1.mapper =
      if (configure c p).1.output_thrusters then (c.mapper.parse c.mapper.construct).2
      else c.mapper.construct := by
  cases h3 : (recheckControlBody p p.config_body).2 <;> simp [configure, initMapper, h3]

/-- Every round of the loop ends in one `loop.sleep()`. -/
theorem tick_sleeps (c : Classes B J Mp W T E Msg) (n : Node B J Mp)
    (inbound : List (Callback × Msg)) :
    sleeps (tick c n inbound).2 = [loop.expected_cycle_time] := by
  have hb : sleeps (tickBody c n).2 = [] := by
    cases h1 : n.control_body <;> cases h2 : (c.body.UpdatePID n.body_pid).1 <;>
      cases h3 : n.output_thrusters <;>
      simp [tickBody, sleeps, Event.slept?, h1, h2, h3]
  have hj : ∀ m : Node B J Mp, sleeps (tickJoints c m).2 = [] := by
    intro m
    cases h1 : m.control_joints <;> cases h2 : (c.joint.UpdatePID m.joint_pid).1 <;>
      simp [tickJoints, sleeps, Event.slept?, h1, h2]
  have hd : ∀ (m : Node B J Mp) (cb : Callback) (msg : Msg),
      sleeps (dispatch c m cb msg).2 = [] := by
    intro m cb msg
    cases h1 : m.control_body <;> cases h2 : m.control_joints <;> cases cb <;>
      simp [dispatch, sleeps, Event.slept?, h1, h2]
  have hs : ∀ (l : List (Callback × Msg)) (m : Node B J Mp),
      sleeps (spinOnce c m l).2 = [] := by
    intro l
    induction l with
    | nil => intro m; rfl
    | cons x rest ih =>
      intro m
      obtain ⟨cb, msg⟩ := x
      have h1 := hd m cb msg
      have h2 := ih (dispatch c m cb msg).1
      simp only [sleeps] at h1 h2
      simp only [spinOnce, sleeps, List.filterMap_append, h1, h2, List.append_nil]
  have h1 := hb
  have h2 := hj (tickBody c n).1
  have h3 := hs inbound (tickJoints c (tickBody c n).1).1
  simp only [sleeps] at h1 h2 h3
  simp only [tick, sleeps, List.filterMap_append, h1, h2, h3, List.nil_append,
    List.filterMap_cons, List.filterMap_nil, Event.slept?]

/-- The first round of a run starts from the state that `configure` leaves. -/
theorem main_first_round (c : Classes B J Mp W T E Msg) (polls : List Params) (p : Params)
    (spins : List (List (Callback × Msg))) (t : Tick B J Mp W T E Msg)
    (hp : waitForConfig polls = some p) (h0 : (main c polls spins).ticks[0]? = some t) :
    t.node = (configure c p).1 := by
  rw [main_of_wait c polls p spins hp] at h0
  cases spins with
  | nil => simp [controlLoop] at h0
  | cons inbound rest =>
    simp only [controlLoop, List.getElem?_cons_zero, Option.some.injEq] at h0
    rw [← h0]

theorem configure_parse_mem (c : Classes B J Mp W T E Msg) (p : Params)
    (h : (configure c p).1.output_thrusters = true) :
    Event.mapperParse (c.mapper.parse c.mapper.construct).1 ∈ (configure c p).2 := by
  simp only [configure] at h
  simp [configure, initMapper, h]

theorem configure_body_mem (c : Classes B J Mp W T E Msg) (p : Params)
    (h : (configure c p).1.control_body = true) :
    Event.bodyInit dt (getParam p.axes []) (getParam p.body_control "position") ∈
      (configure c p).2 ∧
    Event.bodyAdvertise (param p.command "body_command") ∈ (configure c p).2 := by
  simp only [configure] at h
  simp [configure, initBody, h]

/-- A call of the loop body found in the trace of a run comes after all of start-up, in
one of the rounds. -/
theorem trace_split (c : Classes B J Mp W T E Msg) (polls : List Params)
    (spins : List (List (Callback × Msg))) (pre post : List (Event W T E Msg))
    (e : Event W T E Msg) (h : (main c polls spins).trace = pre ++ e :: post)
    (he : e.atStartup = false) :
    ∃ p, waitForConfig polls = some p ∧
      (main c polls spins).startup = (configure c p).2 ∧
      (∃ mid, pre = (configure c p).2 ++ mid) ∧
      ∃ t ∈ controlLoop c (configure c p).1 spins, e ∈ t.events := by
  cases hp : waitForConfig polls with
  | none =>
    rw [main_of_no_config c polls spins hp] at h
    simp [Run.trace] at h
  | some p =>
    rw [main_of_wait c polls p spins hp] at h ⊢
    simp only [Run.trace] at h
    refine ⟨p, rfl, rfl, ?_⟩
    have hmem : e ∈ ((controlLoop c (configure c p).1 spins).map (fun t => t.events)).flatten →
        ∃ t ∈ controlLoop c (configure c p).1 spins, e ∈ t.events := by
      intro hin
      rw [List.mem_flatten] at hin
      obtain ⟨l, hl, hel⟩ := hin
      rw [List.mem_map] at hl
      obtain ⟨t, ht, rfl⟩ := hl
      exact ⟨t, ht, hel⟩
    rcases List.append_eq_append_iff.mp h with ⟨a, ha, hr⟩ | ⟨b, hs, hr⟩
    · exact ⟨⟨a, ha⟩, hmem (by rw [hr]; simp)⟩
    · cases b with
      | nil =>
        simp only [List.append_nil] at hs
        simp only [List.nil_append] at hr
        exact ⟨⟨[], by simp [hs]⟩, hmem (by rw [← hr]; simp)⟩
      | cons x rest =>
        simp only [List.cons_append, List.cons.injEq] at hr
        have hx : x ∈ (configure c p).2 := by rw [hs]; simp
        have := configure_atStartup c p x hx
        rw [← hr.1, he] at this
        exact absurd this (by decide)

end Lemmas

section SpecLemmas

variable {Mp W T E Msg : Type}

theorem spec_tickBody_pids (wrench : SpecPids Msg → W) (effort : SpecPids Msg → E)
    (mapper : ThrusterMapper Mp W T) (n : Node (SpecPids Msg) (SpecPids Msg) Mp) :
    (tickBody (specClasses wrench effort mapper) n).1.body_pid = n.body_pid ∧
    (tickBody (specClasses wrench effort mapper) n).1.joint_pid = n.joint_pid := by
  cases h1 : n.control_body <;> cases h2 : n.body_pid.measurement.isSome <;>
    cases h3 : n.output_thrusters <;>
    simp [tickBody, specClasses, specBody, SpecPids.updateStep, h1, h2, h3]

theorem spec_tickJoints_pids (wrench : SpecPids Msg → W) (effort : SpecPids Msg → E)
    (mapper : ThrusterMapper Mp W T) (n : Node (SpecPids Msg) (SpecPids Msg) Mp) :
    (tickJoints (specClasses wrench effort mapper) n).1.body_pid = n.body_pid ∧
    (tickJoints (specClasses wrench effort mapper) n).1.joint_pid = n.joint_pid := by
  cases h1 : n.control_joints <;> cases h2 : n.joint_pid.measurement.isSome <;>
    simp [tickJoints, specClasses, specJoint, SpecPids.updateStep, h1, h2]

theorem spec_dispatch_received (wrench : SpecPids Msg → W) (effort : SpecPids Msg → E)
    (mapper : ThrusterMapper Mp W T) (n : Node (SpecPids Msg) (SpecPids Msg) Mp)
    (cb : Callback) (msg : Msg) :
    ((dispatch (specClasses wrench effort mapper) n cb msg).1.body_pid.measurement.isSome =
      (n.body_pid.measurement.isSome ||
        delivered Callback.BodyMeasureCallBack
          (dispatch (specClasses wrench effort mapper) n cb msg).2)) ∧
    ((dispatch (specClasses wrench effort mapper) n cb msg).1.joint_pid.measurement.isSome =
      (n.joint_pid.measurement.isSome ||
        delivered Callback.JointMeasureCallBack
          (dispatch (specClasses wrench effort mapper) n cb msg).2)) := by
  cases h1 : n.control_body <;> cases h2 : n.control_joints <;> cases cb <;>
    simp [dispatch, delivered, Event.delivers, specClasses, specBody, specJoint, h1, h2]

theorem spec_spinOnce_received (wrench : SpecPids Msg → W) (effort : SpecPids Msg → E)
    (mapper : ThrusterMapper Mp W T) (inbound : List (Callback × Msg)) :
    ∀ n : Node (SpecPids Msg) (SpecPids Msg) Mp,
    ((spinOnce (specClasses wrench effort mapper) n inbound).1.body_pid.measurement.isSome =
      (n.body_pid.measurement.isSome ||
        delivered Callback.BodyMeasureCallBack
          (spinOnce (specClasses wrench effort mapper) n inbound).2)) ∧
    ((spinOnce (specClasses wrench effort mapper) n inbound).1.joint_pid.measurement.isSome =
      (n.joint_pid.measurement.isSome ||
        delivered Callback.JointMeasureCallBack
          (spinOnce (specClasses wrench effort mapper) n inbound).2)) := by
  induction inbound with
  | nil => intro n; simp [spinOnce, delivered]
  | cons m rest ih =>
    intro n
    obtain ⟨cb, msg⟩ := m
    have hd := spec_dispatch_received wrench effort mapper n cb msg
    have hr := ih (dispatch (specClasses wrench effort mapper) n cb msg).1
    simp only [spinOnce, delivered_append]
    rw [hr.1, hr.2, hd.1, hd.2, Bool.or_assoc, Bool.or_assoc]
    exact ⟨rfl, rfl⟩

/-- Under the controllers of the specification, a controller has its measurement after
a round exactly when it had it before or the round ran its measure callback. -/
theorem spec_tick_received (wrench : SpecPids Msg → W) (effort : SpecPids Msg → E)
    (mapper : ThrusterMapper Mp W T) (n : Node (SpecPids Msg) (SpecPids Msg) Mp)
    (inbound : List (Callback × Msg)) :
    ((tick (specClasses wrench effort mapper) n inbound).1.body_pid.measurement.isSome =
      (n.body_pid.measurement.isSome ||
        delivered Callback.BodyMeasureCallBack
          (tick (specClasses wrench effort mapper) n inbound).2)) ∧
    ((tick (specClasses wrench effort mapper) n inbound).1.joint_pid.measurement.isSome =
      (n.joint_pid.measurement.isSome ||
        delivered Callback.JointMeasureCallBack
          (tick (specClasses wrench effort mapper) n inbound).2)) := by
  have hb := spec_tickBody_pids wrench effort mapper n
  have hj := spec_tickJoints_pids wrench effort mapper
    (tickBody (specClasses wrench effort mapper) n).1
  have hs := spec_spinOnce_received wrench effort mapper inbound
    (tickJoints (specClasses wrench effort mapper)
      (tickBody (specClasses wrench effort mapper) n).1).1
  rw [hj.1, hj.2, hb.1, hb.2] at hs
  rw [tick_delivered, tick_delivered]
  exact hs

theorem spec_configure_fresh (wrench : SpecPids Msg → W) (effort : SpecPids Msg → E)
    (mapper : ThrusterMapper Mp W T) (p : Params) :
    (configure (specClasses wrench effort mapper) p).1.body_pid.measurement.isSome = false ∧
    (configure (specClasses wrench effort mapper) p).1.joint_pid.measurement.isSome = false := by
  constructor
  · cases h : (recheckControlBody p p.config_body).1 <;>
      simp [configure, initBody, specClasses, specBody, SpecPids.construct, h]
  · cases h : p.joints_name.isSome <;>
      simp [configure, initJoints, specClasses, specJoint, SpecPids.construct, h]

end SpecLemmas

/-! ## The claims -/

section Claims

variable {B J Mp W T E Msg : Type}

/-- C1: in every round of the control loop of every run of `main`, a body command is
published if and only if `control_body` holds and `body_pid.UpdatePID()` returned true
in that round (so nothing is published when it returned false), and at most one body
command is published per round. -/
theorem body_publish_iff_updated (c : Classes B J Mp W T E Msg) (polls : List Params)
    (spins : List (List (Callback × Msg))) (t : Tick B J Mp W T E Msg)
    (ht : t ∈ (main c polls spins).ticks) :
    (bodyCommands t.events ≠ [] ↔
      (t.node.control_body = true ∧ (c.body.UpdatePID t.node.body_pid).1 = true)) ∧
    ((c.body.UpdatePID t.node.body_pid).1 = false → bodyCommands t.events = []) ∧
    (bodyCommands t.events).length ≤ 1 := by
  obtain ⟨p, -, hl⟩ := main_ticks_mem c polls spins t ht
  have h := (controlLoop_mem c spins _ t hl).1
  rw [h, tick_bodyCommands]
  cases h1 : t.node.control_body <;> cases h2 : (c.body.UpdatePID t.node.body_pid).1 <;>
    simp

/-- Witness of C1: the second round of the sample thruster run publishes its one body
command. -/
theorem body_publish_iff_updated_witness :
    sampleRound ∈ (main (sampleClasses [some 4, some 9]) [thrusterParams] sampleSpins).ticks ∧
    ((bodyCommands sampleRound.events ≠ [] ↔
      (sampleRound.node.control_body = true ∧
        ((sampleClasses [some 4, some 9]).body.UpdatePID sampleRound.node.body_pid).1 = true)) ∧
    (((sampleClasses [some 4, some 9]).body.UpdatePID sampleRound.node.body_pid).1 = false →
      bodyCommands sampleRound.events = []) ∧
    (bodyCommands sampleRound.events).length ≤ 1) :=
  ⟨mem_of_getElem_some _ 1 _ rfl,
   body_publish_iff_updated (sampleClasses [some 4, some 9]) [thrusterParams] sampleSpins
    sampleRound (mem_of_getElem_some _ 1 _ rfl)⟩

/-- C2: in every round of every run of `main`, whatever is published for the body is
`mapper.wrench2Thrusters(body_pid.WrenchCommand())` when `config/body/control_type` is
"thruster", and `body_pid.WrenchCommand()` itself otherwise; `output_thrusters` holds
exactly in the first case, the mapper applied is the one parsed at start-up, and in the
second case `wrench2Thrusters` is not called at all. -/
theorem body_payload_by_control_type (c : Classes B J Mp W T E Msg) (polls : List Params)
    (p : Params) (spins : List (List (Callback × Msg))) (t : Tick B J Mp W T E Msg)
    (hp : waitForConfig polls = some p) (ht : t ∈ (main c polls spins).ticks) :
    (t.node.output_thrusters = true ↔ p.control_type = some "thruster") ∧
    (∀ payload ∈ bodyCommands t.events,
      payload =
        if p.control_type = some "thruster" then
          BodyCommand.thrusters (c.mapper.wrench2Thrusters (c.mapper.parse c.mapper.construct).2
            (c.body.WrenchCommand (c.body.UpdatePID t.node.body_pid).2))
        else BodyCommand.wrench (c.body.WrenchCommand (c.body.UpdatePID t.node.body_pid).2)) ∧
    (p.control_type ≠ some "thruster" → mapperCalls t.events = []) := by
  rw [main_of_wait c polls p spins hp] at ht
  obtain ⟨he, -, -, ho, hm⟩ := controlLoop_mem c spins _ t ht
  have hflag : t.node.output_thrusters = decide (p.control_type = some "thruster") := by
    rw [ho]; exact recheck_output_thrusters p p.config_body
  have hmap : t.node.output_thrusters = true →
      t.node.mapper = (c.mapper.parse c.mapper.construct).2 := by
    intro h
    rw [ho] at h
    rw [hm]
    simp only [configure] at h ⊢
    simp [initMapper, h]
  rw [he, tick_bodyCommands, tick_mapperCalls]
  by_cases hth : p.control_type = some "thruster"
  · have h1 : t.node.output_thrusters = true := by rw [hflag]; simp [hth]
    rw [← hmap h1]
    refine ⟨by simp [h1, hth], ?_, fun h => absurd hth h⟩
    intro payload hpay
    cases h2 : t.node.control_body && (c.body.UpdatePID t.node.body_pid).1 <;>
      simp [h2, h1, hth] at hpay ⊢
    exact hpay
  · have h1 : t.node.output_thrusters = false := by rw [hflag]; simp [hth]
    refine ⟨by simp [h1, hth], ?_, fun _ => by simp [h1]⟩
    intro payload hpay
    cases h2 : t.node.control_body && (c.body.UpdatePID t.node.body_pid).1 <;>
      simp [h2, h1, hth] at hpay ⊢
    exact hpay

/-- Witness of C2: the second round of the sample thruster run publishes the thruster
forces. -/
theorem body_payload_by_control_type_witness :
    (waitForConfig [thrusterParams] = some thrusterParams ∧
      sampleRound ∈
        (main (sampleClasses [some 4, some 9]) [thrusterParams] sampleSpins).ticks) ∧
    ((sampleRound.node.output_thrusters = true ↔
        thrusterParams.control_type = some "thruster") ∧
    (∀ payload ∈ bodyCommands sampleRound.events,
      payload =
        if thrusterParams.control_type = some "thruster" then
          BodyCommand.thrusters ((sampleClasses [some 4, some 9]).mapper.wrench2Thrusters
            ((sampleClasses [some 4, some 9]).mapper.parse
              (sampleClasses [some 4, some 9]).mapper.construct).2
            ((sampleClasses [some 4, some 9]).body.WrenchCommand
              ((sampleClasses [some 4, some 9]).body.UpdatePID sampleRound.node.body_pid).2))
        else BodyCommand.wrench ((sampleClasses [some 4, some 9]).body.WrenchCommand
          ((sampleClasses [some 4, some 9]).body.UpdatePID sampleRound.node.body_pid).2)) ∧
    (thrusterParams.control_type ≠ some "thruster" → mapperCalls sampleRound.events = [])) :=
  ⟨⟨by decide, mem_of_getElem_some _ 1 _ rfl⟩,
   body_payload_by_control_type (sampleClasses [some 4, some 9]) [thrusterParams]
    thrusterParams sampleSpins sampleRound (by decide) (mem_of_getElem_some _ 1 _ rfl)⟩

/-- C3, as the code has it: when `config/body/control_type` is "thruster",
`mapper.parse` is called exactly once in the whole run, at start-up, and its outcome is
dropped. With a failing parse the control loop is still entered with the mapper that
parse left behind, every round for which `ros::ok()` holds is executed, and each round
publishes a body command exactly when `control_body` (here the value of
`config/body/use_pid`, false when absent) holds and `UpdatePID()` returned true. -/
theorem parse_failure_does_not_stop_loop (c : Classes B J Mp W T E Msg)
    (polls : List Params) (p : Params) (spins : List (List (Callback × Msg)))
    (hp : waitForConfig polls = some p) (hth : p.control_type = some "thruster")
    (hfail : (c.mapper.parse c.mapper.construct).1 = false) :
    parseCalls (main c polls spins).trace = [false] ∧
    parseCalls (main c polls spins).startup = [false] ∧
    Event.mapperParse false ∈ (main c polls spins).startup ∧
    (main c polls spins).ticks.length = spins.length ∧
    ∀ t ∈ (main c polls spins).ticks,
      t.node.control_body = param p.use_pid false ∧
      t.node.mapper = (c.mapper.parse c.mapper.construct).2 ∧
      (bodyCommands t.events).length =
        if t.node.control_body && (c.body.UpdatePID t.node.body_pid).1 then 1 else 0 := by
  have hout : (configure c p).1.output_thrusters = true := by
    simp only [configure]
    rw [recheck_output_thrusters]; simp [hth]
  have hstart : parseCalls (configure c p).2 = [false] := by
    rw [configure_parseCalls, hout, hfail]; rfl
  have htrace : parseCalls (main c polls spins).trace = [false] := by
    unfold parseCalls at hstart ⊢
    rw [trace_filterMap_startup c _ parsed_startup polls p spins hp]
    exact hstart
  refine ⟨htrace, ?_, ?_, ?_, ?_⟩
  · rw [main_of_wait c polls p spins hp]; exact hstart
  · rw [main_of_wait c polls p spins hp]
    have := configure_parse_mem c p hout
    rw [hfail] at this
    exact this
  · rw [main_of_wait c polls p spins hp]; exact controlLoop_length c spins _
  · intro t ht
    rw [main_of_wait c polls p spins hp] at ht
    obtain ⟨he, hb, -, -, hm⟩ := controlLoop_mem c spins _ t ht
    refine ⟨?_, ?_, ?_⟩
    · rw [hb]; exact recheck_control_body_thruster p p.config_body hth
    · rw [hm, configure_mapper, hout]; rfl
    · rw [he, tick_bodyCommands]
      cases t.node.control_body && (c.body.UpdatePID t.node.body_pid).1 <;> simp

/-- Witness of C3 as amended: the sample thruster vehicle with no thruster configured;
the one parse call of the run fails and both rounds are executed. -/
theorem parse_failure_does_not_stop_loop_witness :
    (waitForConfig [thrusterParams] = some thrusterParams ∧
      thrusterParams.control_type = some "thruster" ∧
      ((sampleClasses []).mapper.parse (sampleClasses []).mapper.construct).1 = false) ∧
    (parseCalls (main (sampleClasses []) [thrusterParams] sampleSpins).trace = [false] ∧
    parseCalls (main (sampleClasses []) [thrusterParams] sampleSpins).startup = [false] ∧
    Event.mapperParse false ∈ (main (sampleClasses []) [thrusterParams] sampleSpins).startup ∧
    (main (sampleClasses []) [thrusterParams] sampleSpins).ticks.length = sampleSpins.length ∧
    ∀ t ∈ (main (sampleClasses []) [thrusterParams] sampleSpins).ticks,
      t.node.control_body = param thrusterParams.use_pid false ∧
      t.node.mapper =
        ((sampleClasses []).mapper.parse (sampleClasses []).mapper.construct).2 ∧
      (bodyCommands t.events).length =
        if t.node.control_body && ((sampleClasses []).body.UpdatePID t.node.body_pid).1
        then 1 else 0) :=
  ⟨⟨by decide, by decide, by decide⟩,
   parse_failure_does_not_stop_loop (sampleClasses []) [thrusterParams] thrusterParams
    sampleSpins (by decide) (by decide) (by decide)⟩

/-- Counterexample to C3 as stated: `config/body/control_type` is "thruster", no
thruster is configured so that `mapper.parse` fails, and yet both rounds of the loop
are executed and the second publishes a body command and a joint command. -/
theorem parse_failure_still_publishes :
    thrusterParams.control_type = some "thruster" ∧
    ((sampleClasses []).mapper.parse (sampleClasses []).mapper.construct).1 = false ∧
    parseCalls (main (sampleClasses []) [thrusterParams] sampleSpins).trace = [false] ∧
    (main (sampleClasses []) [thrusterParams] sampleSpins).ticks.length = 2 ∧
    bodyCommands (main (sampleClasses []) [thrusterParams] sampleSpins).trace =
      [BodyCommand.thrusters []] ∧
    jointCommands (main (sampleClasses []) [thrusterParams] sampleSpins).trace = [3] := by
  decide

/-- C4: in every round of every run of `main`, a joint command is published if and
only if `control_joints` holds and `joint_pid.UpdatePID()` returned true in that round;
it is `joint_pid.EffortCommand()`, there is at most one, and what is published is the
same in any round of any run, with any classes for the body and the mapper, that starts
from the same `control_joints` and the same joint controller. -/
theorem joint_publish_iff_updated (c : Classes B J Mp W T E Msg) (polls : List Params)
    (spins : List (List (Callback × Msg))) (t : Tick B J Mp W T E Msg)
    (ht : t ∈ (main c polls spins).ticks) :
    (jointCommands t.events ≠ [] ↔
      (t.node.control_joints = true ∧ (c.joint.UpdatePID t.node.joint_pid).1 = true)) ∧
    (∀ payload ∈ jointCommands t.events,
      payload = c.joint.EffortCommand (c.joint.UpdatePID t.node.joint_pid).2) ∧
    (jointCommands t.events).length ≤ 1 ∧
    (∀ (c2 : Classes B J Mp W T E Msg) (polls2 : List Params)
        (spins2 : List (List (Callback × Msg))) (t2 : Tick B J Mp W T E Msg),
      c2.joint = c.joint → t2 ∈ (main c2 polls2 spins2).ticks →
      t2.node.control_joints = t.node.control_joints →
      t2.node.joint_pid = t.node.joint_pid →
      jointCommands t2.events = jointCommands t.events) := by
  obtain ⟨p, -, hl⟩ := main_ticks_mem c polls spins t ht
  have h := (controlLoop_mem c spins _ t hl).1
  rw [h, tick_jointCommands]
  refine ⟨?_, ?_, ?_, ?_⟩
  · cases t.node.control_joints <;> cases (c.joint.UpdatePID t.node.joint_pid).1 <;> simp
  · cases t.node.control_joints <;> cases (c.joint.UpdatePID t.node.joint_pid).1 <;> simp
  · cases t.node.control_joints <;> cases (c.joint.UpdatePID t.node.joint_pid).1 <;> simp
  · intro c2 polls2 spins2 t2 hc ht2 hcj hj
    obtain ⟨p2, -, hl2⟩ := main_ticks_mem c2 polls2 spins2 t2 ht2
    rw [(controlLoop_mem c2 spins2 _ t2 hl2).1, tick_jointCommands, hc, hcj, hj]

/-- Witness of C4: the second round of the sample thruster run publishes its one joint
command. -/
theorem joint_publish_iff_updated_witness :
    sampleRound ∈ (main (sampleClasses [some 4, some 9]) [thrusterParams] sampleSpins).ticks ∧
    jointCommands sampleRound.events = [3] ∧
    (jointCommands sampleRound.events ≠ [] ↔
      (sampleRound.node.control_joints = true ∧
        ((sampleClasses [some 4, some 9]).joint.UpdatePID
          sampleRound.node.joint_pid).1 = true)) :=
  ⟨mem_of_getElem_some _ 1 _ rfl, by decide,
   (joint_publish_iff_updated (sampleClasses [some 4, some 9]) [thrusterParams] sampleSpins
    sampleRound (mem_of_getElem_some _ 1 _ rfl)).1⟩

/-- C5, under the controllers of the specification (`UpdatePID()` reports whether a
measurement has been received, callbacks run only in `ros::spinOnce()`): if round `k` is
the first whose `spinOnce` runs the body measure callback, no body command is published
in any round up to and including `k` and exactly one is published in every later round;
likewise for the joint measure callback and the joint commands. -/
theorem commands_follow_first_measurement {Th : Type} (wrench : SpecPids Msg → W)
    (effort : SpecPids Msg → E) (mapper : ThrusterMapper Th W T) (polls : List Params)
    (spins : List (List (Callback × Msg))) :
    (∀ (k : Nat) (tk : Tick (SpecPids Msg) (SpecPids Msg) Th W T E Msg),
      (main (specClasses wrench effort mapper) polls spins).ticks[k]? = some tk →
      delivered Callback.BodyMeasureCallBack tk.events = true →
      (∀ (i : Nat) (ti : Tick (SpecPids Msg) (SpecPids Msg) Th W T E Msg), i < k →
        (main (specClasses wrench effort mapper) polls spins).ticks[i]? = some ti →
        delivered Callback.BodyMeasureCallBack ti.events = false) →
      ∀ (i : Nat) (ti : Tick (SpecPids Msg) (SpecPids Msg) Th W T E Msg),
        (main (specClasses wrench effort mapper) polls spins).ticks[i]? = some ti →
        (i ≤ k → bodyCommands ti.events = []) ∧
        (k < i → (bodyCommands ti.events).length = 1)) ∧
    (∀ (k : Nat) (tk : Tick (SpecPids Msg) (SpecPids Msg) Th W T E Msg),
      (main (specClasses wrench effort mapper) polls spins).ticks[k]? = some tk →
      delivered Callback.JointMeasureCallBack tk.events = true →
      (∀ (i : Nat) (ti : Tick (SpecPids Msg) (SpecPids Msg) Th W T E Msg), i < k →
        (main (specClasses wrench effort mapper) polls spins).ticks[i]? = some ti →
        delivered Callback.JointMeasureCallBack ti.events = false) →
      ∀ (i : Nat) (ti : Tick (SpecPids Msg) (SpecPids Msg) Th W T E Msg),
        (main (specClasses wrench effort mapper) polls spins).ticks[i]? = some ti →
        (i ≤ k → jointCommands ti.events = []) ∧
        (k < i → (jointCommands ti.events).length = 1)) := by
  cases hp : waitForConfig polls with
  | none =>
    rw [main_of_no_config _ polls spins hp]
    constructor <;> intro k tk hk <;> simp at hk
  | some p =>
    rw [main_of_wait _ polls p spins hp]
    have hfresh := spec_configure_fresh wrench effort mapper p
    constructor
    · intro k tk hk hdel hfirst i ti hi
      have hrec := controlLoop_received (specClasses wrench effort mapper)
        (fun n => n.body_pid.measurement.isSome) Callback.BodyMeasureCallBack
        (fun n inbound => (spec_tick_received wrench effort mapper n inbound).1) spins _ i ti hi
      have hmi := controlLoop_mem _ spins _ ti (controlLoop_getElem_mem _ _ spins i ti hi)
      have hmk := controlLoop_mem _ spins _ tk (controlLoop_getElem_mem _ _ spins k tk hk)
      rw [hmi.1, tick_bodyCommands]
      constructor
      · intro hik
        have hno : ti.node.body_pid.measurement.isSome = false := by
          cases hsome : ti.node.body_pid.measurement.isSome with
          | false => rfl
          | true =>
            rcases hrec.mp hsome with h0 | ⟨j, tj, hj, hget, hd⟩
            · simp only [] at h0; rw [hfresh.1] at h0; exact absurd h0 (by decide)
            · rw [hfirst j tj (Nat.lt_of_lt_of_le hj hik) hget] at hd
              exact absurd hd (by decide)
        simp [specClasses, specBody, SpecPids.updateStep, hno]
      · intro hki
        have hyes : ti.node.body_pid.measurement.isSome = true :=
          hrec.mpr (Or.inr ⟨k, tk, hki, hk, hdel⟩)
        have hcb : ti.node.control_body = true := by
          rw [hmi.2.1, ← hmk.2.1]
          rw [hmk.1] at hdel
          exact (tick_delivered_flag _ tk.node tk.inbound).1 hdel
        simp [specClasses, specBody, SpecPids.updateStep, hyes, hcb]
    · intro k tk hk hdel hfirst i ti hi
      have hrec := controlLoop_received (specClasses wrench effort mapper)
        (fun n => n.joint_pid.measurement.isSome) Callback.JointMeasureCallBack
        (fun n inbound => (spec_tick_received wrench effort mapper n inbound).2) spins _ i ti hi
      have hmi := controlLoop_mem _ spins _ ti (controlLoop_getElem_mem _ _ spins i ti hi)
      have hmk := controlLoop_mem _ spins _ tk (controlLoop_getElem_mem _ _ spins k tk hk)
      rw [hmi.1, tick_jointCommands]
      constructor
      · intro hik
        have hno : ti.node.joint_pid.measurement.isSome = false := by
          cases hsome : ti.node.joint_pid.measurement.isSome with
          | false => rfl
          | true =>
            rcases hrec.mp hsome with h0 | ⟨j, tj, hj, hget, hd⟩
            · simp only [] at h0; rw [hfresh.2] at h0; exact absurd h0 (by decide)
            · rw [hfirst j tj (Nat.lt_of_lt_of_le hj hik) hget] at hd
              exact absurd hd (by decide)
        simp [specClasses, specJoint, SpecPids.updateStep, hno]
      · intro hki
        have hyes : ti.node.joint_pid.measurement.isSome = true :=
          hrec.mpr (Or.inr ⟨k, tk, hki, hk, hdel⟩)
        have hcj : ti.node.control_joints = true := by
          rw [hmi.2.2.1, ← hmk.2.2.1]
          rw [hmk.1] at hdel
          exact (tick_delivered_flag _ tk.node tk.inbound).2 hdel
        simp [specClasses, specJoint, SpecPids.updateStep, hyes, hcj]

/-- Witness of C5: in the sample thruster run the first body measurement is handled
in round 0; round 0 publishes nothing for the body and round 1 publishes one command. -/
theorem commands_follow_first_measurement_witness :
    ((main (sampleClasses [some 4, some 9]) [thrusterParams] sampleSpins).ticks[0]? =
        some sampleFirstRound ∧
      delivered Callback.BodyMeasureCallBack sampleFirstRound.events = true ∧
      (main (sampleClasses [some 4, some 9]) [thrusterParams] sampleSpins).ticks[1]? =
        some sampleRound) ∧
    bodyCommands sampleFirstRound.events = [] ∧
    (bodyCommands sampleRound.events).length = 1 :=
  ⟨⟨rfl, by decide, rfl⟩,
   ((commands_follow_first_measurement (fun s => param s.measurement 0)
      (fun s => param s.measurement 0)
      (specMapper [some 4, some 9] (fun limits w => limits.map (fun limit => min w limit)))
      [thrusterParams] sampleSpins).1 0 sampleFirstRound rfl (by decide)
      (fun i _ hi _ => absurd hi (Nat.not_lt_zero i)) 0 sampleFirstRound rfl).1
      (Nat.le_refl 0),
   ((commands_follow_first_measurement (fun s => param s.measurement 0)
      (fun s => param s.measurement 0)
      (specMapper [some 4, some 9] (fun limits w => limits.map (fun limit => min w limit)))
      [thrusterParams] sampleSpins).1 0 sampleFirstRound rfl (by decide)
      (fun i _ hi _ => absurd hi (Nat.not_lt_zero i)) 1 sampleRound rfl).2
      (Nat.zero_lt_one)⟩

/-- C6: in a run of `main` on the configuration `p`, `body_pid.Init` is called once
when `control_body` holds and not at all otherwise, and the mode it is handed is
"position" when the private parameter `body_control` is absent and the value of
`body_control` when it is present, whatever the rest of the configuration: the body
controller with which the control loop is entered, and from which its first round
starts, is the result of `Init` on the default-constructed object with `dt`, the
configured axes and that mode. -/
theorem body_mode_from_override (c : Classes B J Mp W T E Msg) (polls : List Params)
    (p : Params) (spins : List (List (Callback × Msg)))
    (hp : waitForConfig polls = some p) :
    (bodyModes (main c polls spins).trace =
      if (recheckControlBody p p.config_body).1 then
        [match p.body_control with
         | none => "position"
         | some v => v]
      else []) ∧
    (p.body_control = none → ∀ m ∈ bodyModes (main c polls spins).trace, m = "position") ∧
    (∀ v, p.body_control = some v → ∀ m ∈ bodyModes (main c polls spins).trace, m = v) ∧
    ((configure c p).1.body_pid =
      if (recheckControlBody p p.config_body).1 then
        c.body.Init c.body.construct p dt (getParam p.axes [])
          (match p.body_control with
           | none => "position"
           | some v => v)
      else c.body.construct) ∧
    (∀ t, (main c polls spins).ticks[0]? = some t →
      t.node.control_body = (recheckControlBody p p.config_body).1 ∧
      t.node.body_pid =
        if (recheckControlBody p p.config_body).1 then
          c.body.Init c.body.construct p dt (getParam p.axes [])
            (match p.body_control with
             | none => "position"
             | some v => v)
        else c.body.construct) := by
  have h : bodyModes (main c polls spins).trace =
      if (recheckControlBody p p.config_body).1 then [getParam p.body_control "position"]
      else [] := by
    unfold bodyModes
    rw [trace_filterMap_startup c _ bodyMode_startup polls p spins hp]
    exact configure_bodyModes c p
  have hmode : (match p.body_control with
      | none => "position"
      | some v => v) = getParam p.body_control "position" := by
    cases p.body_control <;> rfl
  have hpid : (configure c p).1.body_pid =
      if (recheckControlBody p p.config_body).1 then
        c.body.Init c.body.construct p dt (getParam p.axes [])
          (match p.body_control with
           | none => "position"
           | some v => v)
      else c.body.construct := by
    rw [hmode]; exact configure_body_pid c p
  rw [h]
  refine ⟨?_, ?_, ?_, hpid, ?_⟩
  · cases p.body_control <;> rfl
  · intro hn m hm
    rw [hn] at hm
    simp [getParam] at hm
    exact hm.2
  · intro v hv m hm
    rw [hv] at hm
    simp [getParam] at hm
    exact hm.2
  · intro t ht
    rw [main_first_round c polls p spins t hp ht]
    exact ⟨rfl, hpid⟩

/-- Witness of C6: the wrench-actuated sample vehicle overrides the body mode with
"velocity", and the controller of its first round is in that mode. -/
theorem body_mode_from_override_witness :
    waitForConfig [noParams, wrenchParams] = some wrenchParams ∧
    bodyModes (main (sampleClasses []) [noParams, wrenchParams] sampleSpins).trace =
      ["velocity"] ∧
    ((main (sampleClasses []) [noParams, wrenchParams] sampleSpins).ticks[0]?.map
      (fun t => t.node.body_pid.mode)) = some "velocity" ∧
    ((configure (sampleClasses []) wrenchParams).1.body_pid =
      if (recheckControlBody wrenchParams wrenchParams.config_body).1 then
        (sampleClasses []).body.Init (sampleClasses []).body.construct wrenchParams dt
          (getParam wrenchParams.axes [])
          (match wrenchParams.body_control with
           | none => "position"
           | some v => v)
      else (sampleClasses []).body.construct) :=
  ⟨by decide, by decide, by decide,
   (body_mode_from_override (sampleClasses []) [noParams, wrenchParams] wrenchParams
    sampleSpins (by decide)).2.2.2.1⟩

/-- C7: the tick interval handed to `body_pid.Init` and to `joint_pid.Init` in any run
of `main` is the one value `dt`, which is 10 ms (10000000 ns) and strictly positive for
every configuration: the controllers with which the control loop is entered are the
results of `Init` with `dt`. It is the expected cycle time of the 100 Hz rate `loop`, on
which every round of the control loop sleeps once. -/
theorem init_interval_is_loop_period (c : Classes B J Mp W T E Msg) (polls : List Params)
    (spins : List (List (Callback × Msg))) :
    (∀ d ∈ intervals (main c polls spins).trace, d = dt) ∧
    (∀ e ∈ (main c polls spins).trace,
      (∀ d axes mode, e = Event.bodyInit d axes mode → d = dt) ∧
      (∀ d mode, e = Event.jointInit d mode → d = dt)) ∧
    dt.nsec = 10000000 ∧ 0 < dt.nsec ∧
    loop = Rate.ofFrequency 100 ∧ loop.expected_cycle_time = dt ∧
    dt = { nsec := 10000000 } ∧
    (∀ t ∈ (main c polls spins).ticks,
      sleeps t.events = [loop.expected_cycle_time] ∧
      sleeps t.events = [{ nsec := 10000000 }]) ∧
    (∀ p, waitForConfig polls = some p →
      (intervals (main c polls spins).trace =
        (if (recheckControlBody p p.config_body).1 then [{ nsec := 10000000 }] else []) ++
        (if p.joints_name.isSome then [{ nsec := 10000000 }] else [])) ∧
      ((configure c p).1.body_pid =
        if (recheckControlBody p p.config_body).1 then
          c.body.Init c.body.construct p { nsec := 10000000 } (getParam p.axes [])
            (getParam p.body_control "position")
        else c.body.construct) ∧
      ((configure c p).1.joint_pid =
        if p.joints_name.isSome then
          c.joint.Init c.joint.construct p { nsec := 10000000 }
            (getParam p.joint_control "position")
        else c.joint.construct) ∧
      (∀ t, (main c polls spins).ticks[0]? = some t →
        (t.node.body_pid =
          if (recheckControlBody p p.config_body).1 then
            c.body.Init c.body.construct p { nsec := 10000000 } (getParam p.axes [])
              (getParam p.body_control "position")
          else c.body.construct) ∧
        (t.node.joint_pid =
          if p.joints_name.isSome then
            c.joint.Init c.joint.construct p { nsec := 10000000 }
              (getParam p.joint_control "position")
          else c.joint.construct))) := by
  have hdt : dt = { nsec := 10000000 } := by
    have h := dt_nsec
    cases hd : dt with
    | mk n => rw [hd] at h; simp only at h; rw [h]
  have hall : ∀ d ∈ intervals (main c polls spins).trace, d = dt := by
    intro d hd
    cases hp : waitForConfig polls with
    | none =>
      rw [main_of_no_config c polls spins hp] at hd
      simp [Run.trace, intervals] at hd
    | some p =>
      unfold intervals at hd
      rw [trace_filterMap_startup c _ interval_startup polls p spins hp] at hd
      have h := configure_intervals c p
      unfold intervals at h
      rw [h] at hd
      simp at hd
      rcases hd with hd | hd <;> exact hd.2
  refine ⟨hall, ?_, dt_nsec, ?_, rfl, rfl, hdt, ?_, ?_⟩
  · intro e he
    constructor
    · intro d axes mode heq
      apply hall
      simp only [intervals, List.mem_filterMap]
      exact ⟨e, he, by rw [heq]; rfl⟩
    · intro d mode heq
      apply hall
      simp only [intervals, List.mem_filterMap]
      exact ⟨e, he, by rw [heq]; rfl⟩
  · rw [dt_nsec]; decide
  · intro t ht
    obtain ⟨p, -, hl⟩ := main_ticks_mem c polls spins t ht
    have hs : sleeps t.events = [loop.expected_cycle_time] := by
      rw [(controlLoop_mem c spins _ t hl).1]; exact tick_sleeps c t.node t.inbound
    refine ⟨hs, ?_⟩
    rw [hs, ← hdt]; rfl
  · intro p hp
    have hb := configure_body_pid c p
    have hj := configure_joint_pid c p
    rw [hdt] at hb hj
    have hcb : (configure c p).1.control_body = (recheckControlBody p p.config_body).1 := rfl
    rw [hcb] at hb
    refine ⟨?_, hb, hj, ?_⟩
    · unfold intervals
      rw [trace_filterMap_startup c _ interval_startup polls p spins hp]
      have h := configure_intervals c p
      unfold intervals at h
      rw [h, hdt]; rfl
    · intro t ht
      rw [main_first_round c polls p spins t hp ht]
      exact ⟨hb, hj⟩

/-- Witness of C7: the sample thruster run hands `dt` to both controllers and sleeps on
the rate with that cycle time in its second round. -/
theorem init_interval_is_loop_period_witness :
    intervals (main (sampleClasses []) [thrusterParams] sampleSpins).trace = [dt, dt] ∧
    sleeps sampleRound.events = [dt] ∧
    (∀ d ∈ intervals (main (sampleClasses []) [thrusterParams] sampleSpins).trace, d = dt) ∧
    (sleeps sampleRound.events = [loop.expected_cycle_time] ∧
      sleeps sampleRound.events = [{ nsec := 10000000 }]) :=
  ⟨rfl, rfl,
   (init_interval_is_loop_period (sampleClasses []) [thrusterParams] sampleSpins).1,
   (init_interval_is_loop_period (sampleClasses [some 4, some 9]) [thrusterParams]
      sampleSpins).2.2.2.2.2.2.2.1 sampleRound (mem_of_getElem_some _ 1 _ rfl)⟩

/-- C9: wherever a run of `main` calls `mapper.wrench2Thrusters`, all of start-up lies
before that call and start-up called `mapper.parse`; wherever it calls
`body_command_publisher.publish`, all of start-up lies before that call and start-up
called `body_pid.Init` and advertised the body publisher. -/
theorem mapper_and_publisher_ready_before_use (c : Classes B J Mp W T E Msg)
    (polls : List Params) (spins : List (List (Callback × Msg)))
    (pre post : List (Event W T E Msg)) (e : Event W T E Msg)
    (h : (main c polls spins).trace = pre ++ e :: post) :
    (∀ w, e = Event.wrench2Thrusters w →
      (∃ mid, pre = (main c polls spins).startup ++ mid) ∧
      ∃ ok, Event.mapperParse ok ∈ (main c polls spins).startup) ∧
    (∀ payload, e = Event.bodyPublish payload →
      (∃ mid, pre = (main c polls spins).startup ++ mid) ∧
      (∃ d axes mode, Event.bodyInit d axes mode ∈ (main c polls spins).startup) ∧
      ∃ topic, Event.bodyAdvertise topic ∈ (main c polls spins).startup) := by
  constructor
  · intro w hw
    obtain ⟨p, -, hs, hmid, t, ht, het⟩ := trace_split c polls spins pre post e h
      (by rw [hw]; rfl)
    rw [hs]
    refine ⟨hmid, _, configure_parse_mem c p ?_⟩
    have hm := controlLoop_mem c spins _ t ht
    have hin : w ∈ mapperCalls t.events := by
      simp only [mapperCalls, List.mem_filterMap]
      exact ⟨e, het, by rw [hw]; rfl⟩
    rw [hm.1, tick_mapperCalls] at hin
    rw [← hm.2.2.2.1]
    cases h3 : t.node.output_thrusters with
    | true => rfl
    | false => simp [h3] at hin
  · intro payload hpay
    obtain ⟨p, -, hs, hmid, t, ht, het⟩ := trace_split c polls spins pre post e h
      (by rw [hpay]; rfl)
    rw [hs]
    have hm := controlLoop_mem c spins _ t ht
    have hin : payload ∈ bodyCommands t.events := by
      simp only [bodyCommands, List.mem_filterMap]
      exact ⟨e, het, by rw [hpay]; rfl⟩
    rw [hm.1, tick_bodyCommands] at hin
    have hcb : (configure c p).1.control_body = true := by
      rw [← hm.2.1]
      cases h1 : t.node.control_body with
      | true => rfl
      | false => simp [h1] at hin
    have hb := configure_body_mem c p hcb
    exact ⟨hmid, ⟨_, _, _, hb.1⟩, ⟨_, hb.2⟩⟩

/-- Witness of C9: the one `wrench2Thrusters` call of the sample thruster run. -/
theorem mapper_and_publisher_ready_before_use_witness :
    (main (sampleClasses [some 4, some 9]) [thrusterParams] sampleSpins).trace =
      ((main (sampleClasses [some 4, some 9]) [thrusterParams] sampleSpins).startup ++
        sampleFirstRound.events ++ [Event.bodyUpdatePID true]) ++
      Event.wrench2Thrusters 5 ::
        [Event.bodyPublish (BodyCommand.thrusters [4, 5]), Event.jointUpdatePID true,
         Event.jointPublish 3, Event.loopSleep loop.expected_cycle_time] ∧
    ∃ ok, Event.mapperParse ok ∈
      (main (sampleClasses [some 4, some 9]) [thrusterParams] sampleSpins).startup :=
  ⟨rfl,
   ((mapper_and_publisher_ready_before_use (sampleClasses [some 4, some 9]) [thrusterParams]
      sampleSpins
      ((main (sampleClasses [some 4, some 9]) [thrusterParams] sampleSpins).startup ++
        sampleFirstRound.events ++ [Event.bodyUpdatePID true])
      [Event.bodyPublish (BodyCommand.thrusters [4, 5]), Event.jointUpdatePID true,
       Event.jointPublish 3, Event.loopSleep loop.expected_cycle_time]
      (Event.wrench2Thrusters 5) rfl).1 5 rfl).2⟩

/-- C10: the mode handed to `joint_pid.Init` is "position" when the private parameter
`joint_control` is absent and the value of `joint_control` otherwise, and two
configurations that differ only in the private parameter `body_control` hand
`joint_pid.Init` the same mode: in both runs the joint controller with which the control
loop is entered, and from which its first round starts, is the result of `Init` on the
default-constructed object with `dt` and that one mode. -/
theorem joint_mode_ignores_body_override (c : Classes B J Mp W T E Msg)
    (polls1 polls2 : List Params) (p1 p2 : Params)
    (spins1 spins2 : List (List (Callback × Msg)))
    (h1 : waitForConfig polls1 = some p1) (h2 : waitForConfig polls2 = some p2)
    (hsame : p2 = { p1 with body_control := p2.body_control }) :
    jointModes (main c polls1 spins1).trace = jointModes (main c polls2 spins2).trace ∧
    (jointModes (main c polls1 spins1).trace =
      if p1.joints_name.isSome then
        [match p1.joint_control with
         | none => "position"
         | some v => v]
      else []) ∧
    ((configure c p1).1.joint_pid =
      if p1.joints_name.isSome then
        c.joint.Init c.joint.construct p1 dt
          (match p1.joint_control with
           | none => "position"
           | some v => v)
      else c.joint.construct) ∧
    ((configure c p2).1.joint_pid =
      if p1.joints_name.isSome then
        c.joint.Init c.joint.construct p2 dt
          (match p1.joint_control with
           | none => "position"
           | some v => v)
      else c.joint.construct) ∧
    (∀ t, (main c polls1 spins1).ticks[0]? = some t →
      t.node.joint_pid =
        if p1.joints_name.isSome then
          c.joint.Init c.joint.construct p1 dt
            (match p1.joint_control with
             | none => "position"
             | some v => v)
        else c.joint.construct) ∧
    (∀ t, (main c polls2 spins2).ticks[0]? = some t →
      t.node.joint_pid =
        if p1.joints_name.isSome then
          c.joint.Init c.joint.construct p2 dt
            (match p1.joint_control with
             | none => "position"
             | some v => v)
        else c.joint.construct) := by
  have key : ∀ (polls : List Params) (p : Params) (spins : List (List (Callback × Msg))),
      waitForConfig polls = some p →
      jointModes (main c polls spins).trace =
        if p.joints_name.isSome then [getParam p.joint_control "position"] else [] := by
    intro polls p spins hp
    unfold jointModes
    rw [trace_filterMap_startup c _ jointMode_startup polls p spins hp]
    exact configure_jointModes c p
  have hn : p2.joints_name = p1.joints_name := by rw [hsame]
  have hj : p2.joint_control = p1.joint_control := by rw [hsame]
  have hmode : (match p1.joint_control with
      | none => "position"
      | some v => v) = getParam p1.joint_control "position" := by
    cases p1.joint_control <;> rfl
  have hpid1 := configure_joint_pid c p1
  have hpid2 := configure_joint_pid c p2
  rw [hn, hj] at hpid2
  rw [key polls1 p1 spins1 h1, key polls2 p2 spins2 h2, hn, hj, hmode]
  refine ⟨rfl, rfl, hpid1, hpid2, ?_, ?_⟩
  · intro t ht
    rw [main_first_round c polls1 p1 spins1 t h1 ht]; exact hpid1
  · intro t ht
    rw [main_first_round c polls2 p2 spins2 t h2 ht]; exact hpid2

/-- Witness of C10: the sample thruster vehicle with and without a body override; the
body controllers of the first rounds differ in mode, the joint controllers do not. -/
theorem joint_mode_ignores_body_override_witness :
    (waitForConfig [thrusterParams] = some thrusterParams ∧
      waitForConfig [thrusterVelocityParams] = some thrusterVelocityParams ∧
      thrusterVelocityParams =
        { thrusterParams with body_control := thrusterVelocityParams.body_control }) ∧
    bodyModes (main (sampleClasses []) [thrusterParams] sampleSpins).trace = ["position"] ∧
    bodyModes (main (sampleClasses []) [thrusterVelocityParams] sampleSpins).trace =
      ["velocity"] ∧
    ((main (sampleClasses []) [thrusterVelocityParams] sampleSpins).ticks[0]?.map
      (fun t => (t.node.body_pid.mode, t.node.joint_pid.mode))) =
      some ("velocity", "position") ∧
    ((main (sampleClasses []) [thrusterParams] sampleSpins).ticks[0]?.map
      (fun t => (t.node.body_pid.mode, t.node.joint_pid.mode))) =
      some ("position", "position") ∧
    jointModes (main (sampleClasses []) [thrusterParams] sampleSpins).trace =
      jointModes (main (sampleClasses []) [thrusterVelocityParams] sampleSpins).trace :=
  ⟨⟨by decide, by decide, by decide⟩, by decide, by decide, by decide, by decide,
   (joint_mode_ignores_body_override (sampleClasses []) [thrusterParams]
    [thrusterVelocityParams] thrusterParams thrusterVelocityParams sampleSpins sampleSpins
    (by decide) (by decide) (by decide)).1⟩

end Claims

end FreeFloating
